import Mathlib

/-!
# Candy tunnel client: session orchestration (src/core/client.cc)

A shallow embedding of `Candy::Client`: the setters and `getAddress`, the shutdown method,
the interface bring-up (`startTunThread`), the Inbound Loop (`handleWebSocketMessage`), the
Outbound Loop (`handleTunMessage`) and the four message handlers.  `setWebSocketServer`,
`run` and `startWsThread` (endpoint validation and the transport connect) are not embedded;
a session is taken from the moment the Inbound Loop runs.

Conventions of the embedding

* A `std::string` is a list of byte values (`Bytes`).
* The two collaborators the client owns (`tun`, `ws`) are seen through the calls the client
  makes on them.  Every call is appended, in program order, to `Client.events`; what a call
  returns is supplied from outside (`TunResults`, `WsRead`, `TunRead`), so that every outcome
  the collaborators may produce is covered.
* `spdlog` calls are kept as a list of levels in `Client.logs` and are otherwise not interpreted.
* The classes and constants of `core/message.h`, `utility/address.h` are not part of client.cc;
  they are gathered in `Env` and every definition is parametric in it.
* A thread is a joinable flag; creating the Outbound Loop is the event `tunThreadStart`, which
  also records the value `getAddress` would return at that moment.
* `std::terminate` (move-assignment onto a joinable `std::thread`, or an uncaught
  `std::length_error`) ends the process: it is the event `stdTerminate` and the flag
  `Client.terminated`, after which a loop performs nothing more.
-/

namespace Candy

/-- Contents of a `std::string`: byte values, in order. -/
abbrev Bytes := List Nat

/-- Levels of the `spdlog` calls made by client.cc. -/
inductive LogLevel where
  | critical
  | warn
  | info
  | debug
deriving DecidableEq, Repr

/-- Entries of the trace: the calls the client makes on its collaborators (`tun...`, `ws...`),
the joins of its two threads, the assignment `this->localAddress = ...` made by the Inbound
Loop, the construction of the thread that runs the Outbound Loop together with the value of
`localAddress` at that moment, and the two process-level effects, `Candy::shutdown()` and
`std::terminate()`. -/
inductive Event where
  | tunSetName (name : Bytes)
  | tunSetAddress (cidr : Bytes)
  | tunSetMTU (mtu : Nat)
  | tunSetTimeout (seconds : Nat)
  | tunUp
  | tunDown
  | tunWrite (buffer : Bytes)
  | wsWrite (buffer : Bytes)
  | wsDisconnect
  | wsThreadJoin
  | tunThreadJoin
  | setLocalAddress (cidr : Bytes)
  | tunThreadStart (localAddress : Bytes)
  | candyShutdown
  | stdTerminate
deriving DecidableEq, Repr

/-- Observable state of a `utility/address.h` `Address` object: what `getCidr()` and
`getIp()` (host byte order) return. -/
structure Address where
  cidr : Bytes
  ip : Nat
deriving DecidableEq, Repr

/-- An `AuthHeader` under construction: the constructor argument and the password given to
`updateHash`, if it was called. -/
structure AuthHeader where
  ip : Nat
  hash : Option Bytes
deriving DecidableEq, Repr

/-- A `DynamicAddressHeader` under construction: the constructor argument and the password
given to `updateHash`, if it was called. -/
structure DynamicAddressHeader where
  cidr : Bytes
  hash : Option Bytes
deriving DecidableEq, Repr

/-- The method `AuthHeader::updateHash(password)`. -/
def AuthHeader.updateHash (h : AuthHeader) (password : Bytes) : AuthHeader :=
  { h with hash := some password }

/-- The method `DynamicAddressHeader::updateHash(password)`. -/
def DynamicAddressHeader.updateHash (h : DynamicAddressHeader) (password : Bytes) :
    DynamicAddressHeader :=
  { h with hash := some password }

/-- Declarations used by client.cc that live in headers outside it.

* `TYPE_FORWARD`, `TYPE_DYNAMIC_ADDRESS`: enumerators of `MessageType`.
* `sizeofDynamicAddressHeader`, `sizeofForwardHeader`: `sizeof` of the two records.
* `offsetofCidr`: offset of the `cidr` character array inside `DynamicAddressHeader`.
* `cidrUpdate s`: return code of `Address::cidrUpdate(s)` on a default-constructed `Address`,
  with the state of the object afterwards.
* `rawAuthHeader h`, `rawDynamicAddressHeader h`: the `sizeof` bytes of the record object, as
  copied by `message.buffer.assign((char *)(&header), sizeof(...))`. -/
structure Env where
  TYPE_FORWARD : Nat
  TYPE_DYNAMIC_ADDRESS : Nat
  sizeofDynamicAddressHeader : Nat
  sizeofForwardHeader : Nat
  offsetofCidr : Nat
  cidrUpdate : Bytes → Int × Address
  rawAuthHeader : AuthHeader → Bytes
  rawDynamicAddressHeader : DynamicAddressHeader → Bytes

/-- Modelled from the spec: `sizeof(IPv4Header)`, the minimal IPv4 header (core/message.h is
not part of client.cc). -/
def sizeofIPv4Header : Nat := 20

/-- Modelled from the spec: `sizeof(ForwardHeader::type)`, the single type byte that precedes
the packet in a Forward payload. -/
def sizeofForwardHeaderType : Nat := 1

/-- Modelled from the spec: the field `header->version_ihl` of the minimal IPv4 header laid
over the buffer, its first byte (version in the high nibble). -/
def version_ihl (buffer : Bytes) : Nat := buffer.headD 0

/-- Modelled from the spec: the value `Address::netToHost(header->saddr)`, the source address
of the minimal IPv4 header laid over the buffer (bytes 12 to 15, network byte order) as a
host-order 32-bit integer. -/
def netToHostSaddr (buffer : Bytes) : Nat :=
  buffer.getD 12 0 * 2 ^ 24 + buffer.getD 13 0 * 2 ^ 16 + buffer.getD 14 0 * 2 ^ 8
    + buffer.getD 15 0

/-- The call `message.buffer.front()`; on an empty `std::string` this reads the terminating
NUL. -/
def front (buffer : Bytes) : Nat := buffer.headD 0

/-- The expression `header->cidr` used as a `std::string`: the C string that starts at the
`cidr` field of the buffer and ends before the first NUL (the buffer itself is
NUL-terminated). -/
def headerCidr (env : Env) (buffer : Bytes) : Bytes :=
  (buffer.drop env.offsetofCidr).takeWhile (fun b => b != 0)

/-- Modelled from the spec: the kinds of transport envelope, `WebSocketMessageType` (declared
outside client.cc); the kind the spec calls Data is `Message` in the source. -/
inductive WebSocketMessageType where
  | Message
  | Open
  | Close
  | Error
deriving DecidableEq, Repr

/-- Modelled from the spec: a transport envelope, `WebSocketMessage` (declared outside
client.cc): its kind and its payload. -/
structure WebSocketMessage where
  type : WebSocketMessageType
  buffer : Bytes
deriving DecidableEq, Repr

/-- Modelled from the spec: the interface collaborator (`this->tun`), seen through its
setters; a setter that reports failure leaves the interface as it was. -/
structure Tun where
  name : Bytes
  address : Bytes
  mtu : Nat
  timeout : Nat
  isUp : Bool
deriving DecidableEq, Repr

/-- Modelled from the spec: `tun.getIP()` is the IP part of the address the interface was
given by `setAddress`. -/
def Tun.getIP (env : Env) (t : Tun) : Nat := (env.cidrUpdate t.address).2.ip

/-- Return codes of the five interface calls of one bring-up. -/
structure TunResults where
  setName : Int
  setAddress : Int
  setMTU : Int
  setTimeout : Int
  up : Int
deriving DecidableEq, Repr

/-- The fields of `Candy::Client`, with the trace of collaborator calls. -/
structure Client where
  tunName : Bytes
  password : Bytes
  wsUri : Bytes
  localAddress : Bytes
  dynamicAddress : Bytes
  running : Bool
  wsThread : Bool
  tunThread : Bool
  tun : Tun
  events : List Event
  logs : List LogLevel
  terminated : Bool
deriving DecidableEq, Repr

/-- Append one collaborator call to the trace. -/
def Client.emit (c : Client) (e : Event) : Client :=
  { c with events := c.events ++ [e] }

/-- A `spdlog` call. -/
def Client.log (c : Client) (l : LogLevel) : Client :=
  { c with logs := c.logs ++ [l] }

/-- The call `std::terminate()`. -/
def Client.terminate (c : Client) : Client :=
  { c.emit Event.stdTerminate with terminated := true }

/-- The call `this->tun.setName(name)` returning `rc`. -/
def Client.tunSetName (c : Client) (name : Bytes) (rc : Int) : Client :=
  { c.emit (Event.tunSetName name) with
    tun := if rc = 0 then { c.tun with name := name } else c.tun }

/-- The call `this->tun.setAddress(cidr)` returning `rc`. -/
def Client.tunSetAddress (c : Client) (cidr : Bytes) (rc : Int) : Client :=
  { c.emit (Event.tunSetAddress cidr) with
    tun := if rc = 0 then { c.tun with address := cidr } else c.tun }

/-- The call `this->tun.setMTU(mtu)` returning `rc`. -/
def Client.tunSetMTU (c : Client) (mtu : Nat) (rc : Int) : Client :=
  { c.emit (Event.tunSetMTU mtu) with
    tun := if rc = 0 then { c.tun with mtu := mtu } else c.tun }

/-- The call `this->tun.setTimeout(seconds)` returning `rc`. -/
def Client.tunSetTimeout (c : Client) (seconds : Nat) (rc : Int) : Client :=
  { c.emit (Event.tunSetTimeout seconds) with
    tun := if rc = 0 then { c.tun with timeout := seconds } else c.tun }

/-- The call `this->tun.up()` returning `rc`. -/
def Client.tunUp (c : Client) (rc : Int) : Client :=
  { c.emit Event.tunUp with
    tun := if rc = 0 then { c.tun with isUp := true } else c.tun }

/-- The call `this->tun.down()`. -/
def Client.tunDown (c : Client) : Client :=
  { c.emit Event.tunDown with tun := { c.tun with isUp := false } }

/-- The method `Client::setName`. -/
def Client.setName (c : Client) (name : Bytes) : Int × Client :=
  (0, { c with tunName := name })

/-- The method `Client::setPassword`. -/
def Client.setPassword (c : Client) (password : Bytes) : Int × Client :=
  (0, { c with password := password })

/-- The method `Client::setLocalAddress`. -/
def Client.setLocalAddress (c : Client) (cidr : Bytes) : Int × Client :=
  (0, { c with localAddress := cidr })

/-- The method `Client::setDynamicAddress`. -/
def Client.setDynamicAddress (c : Client) (cidr : Bytes) : Int × Client :=
  (0, { c with dynamicAddress := cidr })

/-- The method `Client::getAddress`. -/
def Client.getAddress (c : Client) : Bytes := c.localAddress

/-- The method `Client::shutdown`. -/
def Client.shutdown (c : Client) : Int × Client :=
  if !c.running then (0, c)
  else
    let c := { c with running := false }
    let c := if c.wsThread then { c.emit Event.wsThreadJoin with wsThread := false } else c
    let c := if c.tunThread then { c.emit Event.tunThreadJoin with tunThread := false } else c
    let c := c.tunDown
    let c := c.emit Event.wsDisconnect
    (0, c)

/-- Modelled from the spec: the free function `Candy::shutdown()` (defined outside client.cc),
the process-wide termination signal a loop raises when it stops; it asks the owning context
to shut the session down and touches no field of the client itself. -/
def shutdown (c : Client) : Client := c.emit Event.candyShutdown

/-- The string literal "candy". -/
def strCandy : Bytes := [99, 97, 110, 100, 121]

/-- The string literal "candy-". -/
def strCandyDash : Bytes := [99, 97, 110, 100, 121, 45]

/-- The string literal "0.0.0.0/0". -/
def strAnyAddress : Bytes := [48, 46, 48, 46, 48, 46, 48, 47, 48]

/-- The method `Client::sendDynamicAddressMessage`. -/
def sendDynamicAddressMessage (env : Env) (c : Client) : Client :=
  let address := (env.cidrUpdate c.dynamicAddress).2
  let header : DynamicAddressHeader := { cidr := address.cidr, hash := none }
  let header := header.updateHash c.password
  c.emit (Event.wsWrite (env.rawDynamicAddressHeader header))

/-- The method `Client::sendAuthMessage`. -/
def sendAuthMessage (env : Env) (c : Client) : Client :=
  let address := (env.cidrUpdate c.localAddress).2
  let header : AuthHeader := { ip := address.ip, hash := none }
  let header := header.updateHash c.password
  c.emit (Event.wsWrite (env.rawAuthHeader header))

/-- The method `Client::startTunThread`, the interface calls returning the codes of `rc`.
The thread object is constructed (the Outbound Loop is created) before it is move-assigned to
`this->tunThread`; the assignment calls `std::terminate` when `tunThread` is still joinable. -/
def startTunThread (env : Env) (rc : TunResults) (c : Client) : Int × Client :=
  let c := c.tunSetName (if c.tunName.isEmpty then strCandy else strCandyDash ++ c.tunName)
    rc.setName
  if rc.setName ≠ 0 then (-1, c)
  else
    let c := c.tunSetAddress c.localAddress rc.setAddress
    if rc.setAddress ≠ 0 then (-1, c)
    else
      let c := c.tunSetMTU 1400 rc.setMTU
      if rc.setMTU ≠ 0 then (-1, c)
      else
        let c := c.tunSetTimeout 1 rc.setTimeout
        if rc.setTimeout ≠ 0 then (-1, c)
        else
          let c := c.tunUp rc.up
          if rc.up ≠ 0 then (-1, c)
          else
            let c := c.emit (Event.tunThreadStart c.getAddress)
            if c.tunThread then (0, c.terminate)
            else
              let c := { c with tunThread := true }
              (0, sendAuthMessage env c)

/-- The method `Client::handleDynamicAddressMessage`; the result of `startTunThread` is
discarded, as in the source. -/
def handleDynamicAddressMessage (env : Env) (rc : TunResults) (c : Client)
    (message : WebSocketMessage) : Client :=
  if message.buffer.length ≠ env.sizeofDynamicAddressHeader then
    (c.log LogLevel.warn).log LogLevel.debug
  else
    let address := env.cidrUpdate (headerCidr env message.buffer)
    if address.1 ≠ 0 then c.log LogLevel.warn
    else
      let c := { c with localAddress := address.2.cidr }
      let c := c.emit (Event.setLocalAddress c.localAddress)
      (startTunThread env rc c).2

/-- The method `Client::handleForwardMessage`.  A short payload is only logged.  The length
`message.buffer.length() - sizeof(ForwardHeader::type)` is a `size_t`: on an empty buffer it
wraps around and constructing the string throws `std::length_error`, which nothing catches. -/
def handleForwardMessage (env : Env) (c : Client) (message : WebSocketMessage) : Client :=
  let c := if message.buffer.length < env.sizeofForwardHeader then c.log LogLevel.warn else c
  if message.buffer.length < sizeofForwardHeaderType then c.terminate
  else c.emit (Event.tunWrite (message.buffer.drop sizeofForwardHeaderType))

/-- What a loop does after one pass through its body: `continue`, `break`, or nothing
because the process was terminated. -/
inductive Ctl where
  | next
  | stop
  | dead
deriving DecidableEq, Repr

/-- One call of `this->ws.read(message)`: its return value, the message it filled in, and
the return codes the interface gives if this iteration brings it up. -/
structure WsRead where
  error : Int
  message : WebSocketMessage
  tun : TunResults
deriving DecidableEq, Repr

/-- Body of the `while (this->running)` loop of `Client::handleWebSocketMessage`. -/
def wsIteration (env : Env) (c : Client) (r : WsRead) : Ctl × Client :=
  if r.error = 0 then (Ctl.next, c)
  else if r.error < 0 then (Ctl.stop, c.log LogLevel.critical)
  else
    match r.message.type with
    | WebSocketMessageType.Message =>
      if front r.message.buffer = env.TYPE_FORWARD then
        let c := handleForwardMessage env c r.message
        (if c.terminated then Ctl.dead else Ctl.next, c)
      else if front r.message.buffer = env.TYPE_DYNAMIC_ADDRESS then
        let c := handleDynamicAddressMessage env r.tun c r.message
        (if c.terminated then Ctl.dead else Ctl.next, c)
      else (Ctl.next, c.log LogLevel.warn)
    | WebSocketMessageType.Open =>
      if !c.localAddress.isEmpty then
        let res := startTunThread env r.tun c
        if res.2.terminated then (Ctl.dead, res.2)
        else if res.1 ≠ 0 then (Ctl.stop, res.2.log LogLevel.critical)
        else (Ctl.next, res.2)
      else
        let c :=
          if c.dynamicAddress.isEmpty || (env.cidrUpdate c.dynamicAddress).1 ≠ 0 then
            ({ c with dynamicAddress := strAnyAddress }).log LogLevel.warn
          else c
        (Ctl.next, sendDynamicAddressMessage env c)
    | WebSocketMessageType.Close => (Ctl.stop, c.log LogLevel.info)
    | WebSocketMessageType.Error => (Ctl.stop, c.log LogLevel.critical)

/-- The method `Client::handleWebSocketMessage` (the Inbound Loop) run over the successive
results of `ws.read`.  When the results are used up the loop is waiting in `read`. -/
def handleWebSocketMessage (env : Env) : Client → List WsRead → Client
  | c, [] => if c.running then c else shutdown c
  | c, r :: rs =>
    if c.running then
      match wsIteration env c r with
      | (Ctl.next, c1) => handleWebSocketMessage env c1 rs
      | (Ctl.stop, c1) => shutdown c1
      | (Ctl.dead, c1) => c1
    else shutdown c

/-- One call of `this->tun.read(buffer)`: its return value and the buffer it filled in. -/
structure TunRead where
  error : Int
  buffer : Bytes
deriving DecidableEq, Repr

/-- Body of the `while (this->running)` loop of `Client::handleTunMessage`.  The local
`message` lives across iterations; its buffer is threaded through. -/
def tunIteration (env : Env) (c : Client) (message : Bytes) (r : TunRead) :
    Ctl × Client × Bytes :=
  if r.error = 0 then (Ctl.next, c, message)
  else if r.error < 0 then (Ctl.stop, c.log LogLevel.critical, message)
  else if r.buffer.length < sizeofIPv4Header then (Ctl.next, c, message)
  else if version_ihl r.buffer >>> 4 ≠ 4 then (Ctl.next, c, message)
  else if netToHostSaddr r.buffer ≠ c.tun.getIP env then (Ctl.next, c, message)
  else
    let message : Bytes := []
    let message := message ++ [env.TYPE_FORWARD]
    let message := message ++ r.buffer
    (Ctl.next, c.emit (Event.wsWrite message), message)

/-- The method `Client::handleTunMessage` (the Outbound Loop) run over the successive results
of `tun.read`, starting with `message.buffer` holding `message`. -/
def handleTunMessage (env : Env) : Client → Bytes → List TunRead → Client
  | c, _, [] => if c.running then c else shutdown c
  | c, message, r :: rs =>
    if c.running then
      match tunIteration env c message r with
      | (Ctl.next, c1, m1) => handleTunMessage env c1 m1 rs
      | (Ctl.stop, c1, _) => shutdown c1
      | (Ctl.dead, c1, _) => c1
    else shutdown c

/-! ## A concrete instance of the collaborators, for the worked examples -/

/-- Value of a string of ASCII decimal digits. -/
def demoDec (s : Bytes) : Option Nat :=
  if s.isEmpty then none
  else s.foldl (fun acc b =>
    match acc with
    | some n => if 48 ≤ b ∧ b ≤ 57 then some (n * 10 + (b - 48)) else none
    | none => none) (some 0)

/-- Pieces of a string between occurrences of a separator. -/
def demoSplit (sep : Nat) : Bytes → List Bytes
  | [] => [[]]
  | b :: bs =>
    if b = sep then [] :: demoSplit sep bs
    else
      match demoSplit sep bs with
      | [] => [[b]]
      | h :: t => (b :: h) :: t

/-- A dotted-quad/length CIDR reader standing for `Address::cidrUpdate`: on success the object
renders the text it was given and holds the address as a host-order integer. -/
def demoCidrUpdate (s : Bytes) : Int × Address :=
  match demoSplit 47 s with
  | [ipText, len] =>
    match (demoSplit 46 ipText).map demoDec, demoDec len with
    | [some a, some b, some c, some d], some p =>
      if a < 256 ∧ b < 256 ∧ c < 256 ∧ d < 256 ∧ p ≤ 32 then
        (0, { cidr := s, ip := a * 2 ^ 24 + b * 2 ^ 16 + c * 2 ^ 8 + d })
      else (-1, { cidr := [], ip := 0 })
    | _, _ => (-1, { cidr := [], ip := 0 })
  | _ => (-1, { cidr := [], ip := 0 })

/-- A string padded with NUL bytes to a fixed width. -/
def demoPad (width : Nat) (s : Bytes) : Bytes :=
  (s ++ List.replicate width 0).take width

/-- The four bytes of a 32-bit integer, most significant first. -/
def demoBe32 (n : Nat) : Bytes :=
  [n / 2 ^ 24 % 256, n / 2 ^ 16 % 256, n / 2 ^ 8 % 256, n % 256]

/-- A stand-in for the integrity tag: 32 bytes determined by the password. -/
def demoTag (hash : Option Bytes) : Bytes :=
  match hash with
  | none => List.replicate 32 0
  | some password => demoPad 32 (password.map (fun b => (b + 1) % 256))

/-- Modelled from the spec: an instance of the declarations of core/message.h and
utility/address.h with the wire record layouts of the spec, Auth = type byte, 4-byte address in
network order, tag; DynamicAddress = type byte, 32-byte CIDR text, tag (0, 1, 2 are the type
bytes of Auth, Forward, DynamicAddress). -/
def demoEnv : Env where
  TYPE_FORWARD := 1
  TYPE_DYNAMIC_ADDRESS := 2
  sizeofDynamicAddressHeader := 65
  sizeofForwardHeader := 21
  offsetofCidr := 1
  cidrUpdate := demoCidrUpdate
  rawAuthHeader := fun h => 0 :: (demoBe32 h.ip ++ demoTag h.hash)
  rawDynamicAddressHeader := fun h => 2 :: (demoPad 32 h.cidr ++ demoTag h.hash)

/-- The text "10.0.0.5/24". -/
def str_10_0_0_5_24 : Bytes := [49, 48, 46, 48, 46, 48, 46, 53, 47, 50, 52]

/-- The text "10.0.0.7/24". -/
def str_10_0_0_7_24 : Bytes := [49, 48, 46, 48, 46, 48, 46, 55, 47, 50, 52]

/-- The text "10.0.0.0/24". -/
def str_10_0_0_0_24 : Bytes := [49, 48, 46, 48, 46, 48, 46, 48, 47, 50, 52]

/-- The text "secret". -/
def strSecret : Bytes := [115, 101, 99, 114, 101, 116]

/-- An interface that has not been configured. -/
def demoTun : Tun := { name := [], address := [], mtu := 0, timeout := 0, isUp := false }

/-- A session after `run()`: configured with a local address and a dynamic-address hint,
running, the Inbound Loop started, nothing exchanged yet. -/
def demoClient (localAddress dynamicAddress : Bytes) : Client :=
  { tunName := [], password := strSecret, wsUri := [], localAddress := localAddress,
    dynamicAddress := dynamicAddress, running := true, wsThread := true, tunThread := false,
    tun := demoTun, events := [], logs := [], terminated := false }

/-- Return codes of a bring-up in which every step succeeds. -/
def tunOk : TunResults := { setName := 0, setAddress := 0, setMTU := 0, setTimeout := 0, up := 0 }

/-- A DynamicAddress record of the instance carrying the given CIDR text. -/
def demoResponse (cidr : Bytes) : Bytes := 2 :: (demoPad 32 cidr ++ List.replicate 32 7)

/-- A 20-byte IPv4 header with the given source address bytes, followed by a payload. -/
def demoPacket (a b c d : Nat) (payload : Bytes) : Bytes :=
  [69, 0, 0, 20, 0, 0, 0, 0, 64, 17, 0, 0, a, b, c, d, 10, 0, 0, 1] ++ payload

/-! ## Definitions used to state the properties -/

/-- The packet validator as the spec words it: long enough for an IPv4 header, version nibble
4, source address equal to the address of the interface. -/
abbrev accepted (env : Env) (c : Client) (buffer : Bytes) : Prop :=
  sizeofIPv4Header ≤ buffer.length ∧ version_ihl buffer >>> 4 = 4 ∧
    netToHostSaddr buffer = c.tun.getIP env

/-- What the Outbound Loop is to write for a list of reads: one Forward payload for each read
that returned data and passes the validator, in order. -/
def forwarded (env : Env) (c : Client) (reads : List TunRead) : List Event :=
  (reads.filter (fun r => decide (0 < r.error ∧ accepted env c r.buffer))).map
    (fun r => Event.wsWrite (env.TYPE_FORWARD :: r.buffer))

/-- Every step of a bring-up succeeds. -/
abbrev TunResults.allOk (rc : TunResults) : Prop :=
  rc.setName = 0 ∧ rc.setAddress = 0 ∧ rc.setMTU = 0 ∧ rc.setTimeout = 0 ∧ rc.up = 0

/-- The name the interface is given: "candy", or "candy-" followed by the configured name. -/
def interfaceName (c : Client) : Bytes :=
  if c.tunName.isEmpty then strCandy else strCandyDash ++ c.tunName

/-- The interface once it has been brought up with the given name and address. -/
def tunUpWith (name address : Bytes) : Tun :=
  { name := name, address := address, mtu := 1400, timeout := 1, isUp := true }

/-- The Auth record for the address text `cidr` and a password: constructed with the IP part
of the address, tag computed with the password. -/
def authRecord (env : Env) (cidr password : Bytes) : Bytes :=
  env.rawAuthHeader { ip := (env.cidrUpdate cidr).2.ip, hash := some password }

/-- The DynamicAddress record for the hint text `cidr` and a password. -/
def dynamicAddressRecord (env : Env) (cidr password : Bytes) : Bytes :=
  env.rawDynamicAddressHeader { cidr := (env.cidrUpdate cidr).2.cidr, hash := some password }

/-- The calls of a successful bring-up with address `a`, in order: the five interface calls,
the creation of the Outbound Loop, the Auth record. -/
def bringUpEvents (env : Env) (c : Client) (a : Bytes) : List Event :=
  [Event.tunSetName (interfaceName c), Event.tunSetAddress a, Event.tunSetMTU 1400,
    Event.tunSetTimeout 1, Event.tunUp, Event.tunThreadStart a,
    Event.wsWrite (authRecord env a c.password)]

/-- An interface configuration call (`setName`, `setAddress`, `setMTU`, `setTimeout`, `up`). -/
def Event.isTunConfig : Event → Bool
  | Event.tunSetName _ => true
  | Event.tunSetAddress _ => true
  | Event.tunSetMTU _ => true
  | Event.tunSetTimeout _ => true
  | Event.tunUp => true
  | _ => false

/-- The creation of the Outbound Loop. -/
def Event.isThreadStart : Event → Bool
  | Event.tunThreadStart _ => true
  | _ => false

/-- An assignment to the effective local address. -/
def Event.isAssignment : Event → Bool
  | Event.setLocalAddress _ => true
  | _ => false

/-- Number of times the Outbound Loop is created in a trace. -/
def threadStarts (es : List Event) : Nat := es.countP Event.isThreadStart

/-- Number of assignments to the effective local address in a trace. -/
def assignments (es : List Event) : Nat := es.countP Event.isAssignment

/-- A read that delivered a Data payload typed DynamicAddress. -/
def WsRead.isDynamicAddress (env : Env) (r : WsRead) : Bool :=
  decide (0 < r.error) && (r.message.type == WebSocketMessageType.Message
    && front r.message.buffer == env.TYPE_DYNAMIC_ADDRESS)

/-- A read that delivered an Open envelope or a Data payload typed DynamicAddress: the two
envelopes on which the Inbound Loop may bring the interface up. -/
def WsRead.isBringUpRequest (env : Env) (r : WsRead) : Bool :=
  decide (0 < r.error) && (r.message.type == WebSocketMessageType.Open
    || (r.message.type == WebSocketMessageType.Message
      && front r.message.buffer == env.TYPE_DYNAMIC_ADDRESS))

/-- The CIDR reader never renders a successfully read address as the empty string. -/
def Env.rendersNonEmpty (env : Env) : Prop :=
  ∀ s, (env.cidrUpdate s).1 = 0 → (env.cidrUpdate s).2.cidr ≠ []

/-- What one pass of the Inbound Loop adds to the trace: `new` is appended, the running flag
is kept, the Outbound Loop is created at most once and only on a bring-up request, the
effective local address is assigned at most once and only on a DynamicAddress payload and is
otherwise kept, and it is non-empty whenever the Outbound Loop is created. -/
def StepFacts (env : Env) (c : Client) (r : WsRead) (c1 : Client) (new : List Event) : Prop :=
  c1.events = c.events ++ new ∧ c1.running = c.running
    ∧ threadStarts new ≤ (if r.isBringUpRequest env then 1 else 0)
    ∧ assignments new ≤ (if r.isDynamicAddress env then 1 else 0)
    ∧ (r.isDynamicAddress env = false → c1.localAddress = c.localAddress)
    ∧ (env.rendersNonEmpty → ∀ a, Event.tunThreadStart a ∈ new → a ≠ [])

/-- The hint a DynamicAddress request carries: the configured hint when it is non-empty and
the CIDR reader accepts it, "0.0.0.0/0" otherwise. -/
def effectiveHint (env : Env) (c : Client) : Bytes :=
  if c.dynamicAddress = [] ∨ (env.cidrUpdate c.dynamicAddress).1 ≠ 0 then strAnyAddress
  else c.dynamicAddress

/-- What a run of the Inbound Loop over `reads` adds to the trace. -/
def RunFacts (env : Env) (c : Client) (reads : List WsRead) (c1 : Client) (new : List Event) :
    Prop :=
  c1.events = c.events ++ new
    ∧ threadStarts new ≤ reads.countP (WsRead.isBringUpRequest env)
    ∧ assignments new ≤ reads.countP (WsRead.isDynamicAddress env)
    ∧ (reads.countP (WsRead.isDynamicAddress env) = 0 → c1.localAddress = c.localAddress)
    ∧ (env.rendersNonEmpty → ∀ a, Event.tunThreadStart a ∈ new → a ≠ [])

/-- Relation between a state and a later state of the same run: a joinable `tunThread` stays
joinable, and as long as the process has not been terminated the Outbound Loop has been
created at most once more, never when `tunThread` was already joinable, and its creation
leaves `tunThread` joinable. -/
def ThreadFacts (c c1 : Client) : Prop :=
  (c.tunThread = true → c1.tunThread = true)
    ∧ (c1.terminated = false →
        c.terminated = false
        ∧ (c.tunThread = true → threadStarts c1.events = threadStarts c.events)
        ∧ (threadStarts c.events < threadStarts c1.events → c1.tunThread = true)
        ∧ threadStarts c1.events ≤ threadStarts c.events + 1)

/-- The session of the first example once its interface is up: local address "10.0.0.5/24",
bring-up succeeded, Outbound Loop created, Auth sent. -/
def demoUp : Client := (startTunThread demoEnv tunOk (demoClient str_10_0_0_5_24 [])).2

/-- The CIDR a DynamicAddress record carries, as the reader renders it (`address.getCidr()`
after `address.cidrUpdate(header->cidr)`). -/
def responseCidr (env : Env) (buffer : Bytes) : Bytes :=
  (env.cidrUpdate (headerCidr env buffer)).2.cidr

/-- The Open envelope, with a bring-up in which every step succeeds. -/
def demoOpen : WsRead :=
  { error := 1, message := { type := WebSocketMessageType.Open, buffer := [] }, tun := tunOk }

/-- A well-formed DynamicAddress response carrying `cidr`, with the return codes `rc` for the
bring-up it starts. -/
def demoAssign (cidr : Bytes) (rc : TunResults) : WsRead :=
  { error := 1,
    message := { type := WebSocketMessageType.Message, buffer := demoResponse cidr },
    tun := rc }

/-- Return codes of a bring-up in which only the last step, `tun.up()`, fails. -/
def tunUpFails : TunResults :=
  { setName := 0, setAddress := 0, setMTU := 0, setTimeout := 0, up := -1 }

/-! ## Lemmas and theorems -/

theorem tunIteration_eq (env : Env) (c : Client) (prev : Bytes) (r : TunRead)
    (herr : 0 < r.error) :
    tunIteration env c prev r =
      if accepted env c r.buffer then
        (Ctl.next, c.emit (Event.wsWrite (env.TYPE_FORWARD :: r.buffer)),
          env.TYPE_FORWARD :: r.buffer)
      else (Ctl.next, c, prev) := by
  have h0 : r.error ≠ 0 := by omega
  have h1 : ¬ r.error < 0 := by omega
  unfold tunIteration accepted
  simp only [h0, h1, if_false]
  by_cases hl : r.buffer.length < sizeofIPv4Header
  · have : ¬ sizeofIPv4Header ≤ r.buffer.length := by omega
    simp [hl, this]
  · have hl2 : sizeofIPv4Header ≤ r.buffer.length := by omega
    by_cases hv : version_ihl r.buffer >>> 4 = 4
    · by_cases hs : netToHostSaddr r.buffer = c.tun.getIP env
      · simp [hl, hl2, hv, hs]
      · simp [hl, hl2, hv, hs]
    · simp [hl, hl2, hv]

theorem emit_tun (c : Client) (e : Event) : (c.emit e).tun = c.tun := rfl

theorem emit_running (c : Client) (e : Event) : (c.emit e).running = c.running := rfl

theorem emit_events (c : Client) (e : Event) : (c.emit e).events = c.events ++ [e] := rfl

theorem accepted_emit (env : Env) (c : Client) (e : Event) (b : Bytes) :
    accepted env (c.emit e) b ↔ accepted env c b := Iff.rfl

theorem forwarded_emit (env : Env) (c : Client) (e : Event) (reads : List TunRead) :
    forwarded env (c.emit e) reads = forwarded env c reads := rfl

theorem handleTunMessage_events (env : Env) (reads : List TunRead) :
    ∀ (c : Client) (prev : Bytes), c.running = true → (∀ r ∈ reads, 0 ≤ r.error) →
      (handleTunMessage env c prev reads).events = c.events ++ forwarded env c reads := by
  induction reads with
  | nil =>
    intro c prev hrun _
    simp [handleTunMessage, hrun, forwarded]
  | cons r rs ih =>
    intro c prev hrun hall
    have hr : 0 ≤ r.error := hall r (List.mem_cons_self _ _)
    have hrs : ∀ x ∈ rs, 0 ≤ x.error := fun x hx => hall x (List.mem_cons_of_mem _ hx)
    by_cases hz : r.error = 0
    · have hit : tunIteration env c prev r = (Ctl.next, c, prev) := by
        simp [tunIteration, hz]
      simp only [handleTunMessage, hrun, if_true, hit]
      rw [ih c prev hrun hrs]
      simp [forwarded, List.filter_cons, hz]
    · have hpos : 0 < r.error := by omega
      have hit := tunIteration_eq env c prev r hpos
      by_cases ha : accepted env c r.buffer
      · rw [if_pos ha] at hit
        simp only [handleTunMessage, hrun, if_true, hit]
        rw [ih _ _ (by simpa [emit_running] using hrun) hrs, forwarded_emit, emit_events]
        simp [forwarded, List.filter_cons, hpos, ha]
      · rw [if_neg ha] at hit
        simp only [handleTunMessage, hrun, if_true, hit]
        rw [ih c prev hrun hrs]
        simp [forwarded, List.filter_cons, ha]

theorem startTunThread_ok (env : Env) (rc : TunResults) (c : Client) (hok : rc.allOk)
    (hthr : c.tunThread = false) :
    startTunThread env rc c =
      (0, { c with
              tun := tunUpWith (interfaceName c) c.localAddress,
              tunThread := true,
              events := c.events ++ bringUpEvents env c c.localAddress }) := by
  obtain ⟨h1, h2, h3, h4, h5⟩ := hok
  simp [startTunThread, h1, h2, h3, h4, h5, hthr, Client.tunSetName, Client.tunSetAddress,
    Client.tunSetMTU, Client.tunSetTimeout, Client.tunUp, Client.emit, sendAuthMessage,
    AuthHeader.updateHash, Client.getAddress, bringUpEvents, authRecord, tunUpWith,
    interfaceName]

theorem startTunThread_fail (env : Env) (rc : TunResults) (c : Client) (hfail : ¬ rc.allOk) :
    ∃ new, startTunThread env rc c =
        (-1, { c with tun := (startTunThread env rc c).2.tun, events := c.events ++ new })
      ∧ new ≠ [] ∧ ∀ e ∈ new, e.isTunConfig = true := by
  unfold TunResults.allOk at hfail
  by_cases h1 : rc.setName = 0
  · by_cases h2 : rc.setAddress = 0
    · by_cases h3 : rc.setMTU = 0
      · by_cases h4 : rc.setTimeout = 0
        · have h5 : rc.up ≠ 0 := fun h => hfail ⟨h1, h2, h3, h4, h⟩
          refine ⟨[Event.tunSetName (interfaceName c), Event.tunSetAddress c.localAddress,
            Event.tunSetMTU 1400, Event.tunSetTimeout 1, Event.tunUp], ?_, by simp, ?_⟩
          · simp [startTunThread, h1, h2, h3, h4, h5, Client.tunSetName, Client.tunSetAddress,
              Client.tunSetMTU, Client.tunSetTimeout, Client.tunUp, Client.emit, interfaceName]
          · intro e he
            simp at he
            rcases he with rfl | rfl | rfl | rfl | rfl <;> rfl
        · refine ⟨[Event.tunSetName (interfaceName c), Event.tunSetAddress c.localAddress,
            Event.tunSetMTU 1400, Event.tunSetTimeout 1], ?_, by simp, ?_⟩
          · simp [startTunThread, h1, h2, h3, h4, Client.tunSetName, Client.tunSetAddress,
              Client.tunSetMTU, Client.tunSetTimeout, Client.emit, interfaceName]
          · intro e he
            simp at he
            rcases he with rfl | rfl | rfl | rfl <;> rfl
      · refine ⟨[Event.tunSetName (interfaceName c), Event.tunSetAddress c.localAddress,
          Event.tunSetMTU 1400], ?_, by simp, ?_⟩
        · simp [startTunThread, h1, h2, h3, Client.tunSetName, Client.tunSetAddress,
            Client.tunSetMTU, Client.emit, interfaceName]
        · intro e he
          simp at he
          rcases he with rfl | rfl | rfl <;> rfl
    · refine ⟨[Event.tunSetName (interfaceName c), Event.tunSetAddress c.localAddress], ?_,
        by simp, ?_⟩
      · simp [startTunThread, h1, h2, Client.tunSetName, Client.tunSetAddress, Client.emit,
          interfaceName]
      · intro e he
        simp at he
        rcases he with rfl | rfl <;> rfl
  · refine ⟨[Event.tunSetName (interfaceName c)], ?_, by simp, ?_⟩
    · simp [startTunThread, h1, Client.tunSetName, Client.emit, interfaceName]
    · intro e he
      simp at he
      subst he
      rfl

theorem startTunThread_twice (env : Env) (rc : TunResults) (c : Client) (hok : rc.allOk)
    (hthr : c.tunThread = true) :
    startTunThread env rc c =
      (0, { c with
              tun := tunUpWith (interfaceName c) c.localAddress,
              terminated := true,
              events := c.events ++
                [Event.tunSetName (interfaceName c), Event.tunSetAddress c.localAddress,
                  Event.tunSetMTU 1400, Event.tunSetTimeout 1, Event.tunUp,
                  Event.tunThreadStart c.localAddress, Event.stdTerminate] }) := by
  obtain ⟨h1, h2, h3, h4, h5⟩ := hok
  simp [startTunThread, h1, h2, h3, h4, h5, hthr, Client.tunSetName, Client.tunSetAddress,
    Client.tunSetMTU, Client.tunSetTimeout, Client.tunUp, Client.emit, Client.terminate,
    Client.getAddress, tunUpWith, interfaceName]

theorem startTunThread_trace (env : Env) (rc : TunResults) (c : Client) :
    ∃ new, (startTunThread env rc c).2 =
        { c with
            tun := (startTunThread env rc c).2.tun,
            tunThread := (startTunThread env rc c).2.tunThread,
            terminated := (startTunThread env rc c).2.terminated,
            events := c.events ++ new }
      ∧ threadStarts new ≤ 1 ∧ assignments new = 0
      ∧ ∀ a, Event.tunThreadStart a ∈ new → a = c.localAddress := by
  by_cases hok : rc.allOk
  · cases hthr : c.tunThread
    · rw [startTunThread_ok env rc c hok hthr]
      refine ⟨bringUpEvents env c c.localAddress, rfl, by simp [threadStarts, bringUpEvents,
        List.countP_cons, Event.isThreadStart], by simp [assignments, bringUpEvents,
        List.countP_cons, Event.isAssignment], ?_⟩
      intro a ha
      simp [bringUpEvents] at ha
      exact ha
    · rw [startTunThread_twice env rc c hok hthr]
      refine ⟨_, rfl, by simp [threadStarts, List.countP_cons, Event.isThreadStart],
        by simp [assignments, List.countP_cons, Event.isAssignment], ?_⟩
      intro a ha
      simp at ha
      exact ha
  · obtain ⟨new, heq, _, hcfg⟩ := startTunThread_fail env rc c hok
    refine ⟨new, ?_, ?_, ?_, ?_⟩
    · rw [heq]
    · have : threadStarts new = 0 := by
        unfold threadStarts
        rw [List.countP_eq_zero]
        intro e he
        have := hcfg e he
        cases e <;> simp_all [Event.isTunConfig, Event.isThreadStart]
      omega
    · unfold assignments
      rw [List.countP_eq_zero]
      intro e he
      have := hcfg e he
      cases e <;> simp_all [Event.isTunConfig, Event.isAssignment]
    · intro a ha
      have := hcfg _ ha
      simp [Event.isTunConfig] at this

theorem handleForwardMessage_trace (env : Env) (c : Client) (m : WebSocketMessage) :
    ∃ new, (handleForwardMessage env c m).events = c.events ++ new
      ∧ (handleForwardMessage env c m).running = c.running
      ∧ (handleForwardMessage env c m).localAddress = c.localAddress
      ∧ threadStarts new = 0 ∧ assignments new = 0 := by
  unfold handleForwardMessage
  by_cases hs : m.buffer.length < sizeofForwardHeaderType
  · refine ⟨[Event.stdTerminate], ?_, ?_, ?_, by decide, by decide⟩ <;>
      (simp only [hs, if_true]; split <;> rfl)
  · refine ⟨[Event.tunWrite (m.buffer.drop sizeofForwardHeaderType)], ?_, ?_, ?_,
      by simp [threadStarts, Event.isThreadStart], by simp [assignments, Event.isAssignment]⟩ <;>
      (simp only [hs, if_false]; split <;> rfl)

theorem handleDynamicAddressMessage_trace (env : Env) (rc : TunResults) (c : Client)
    (m : WebSocketMessage) :
    ∃ new, (handleDynamicAddressMessage env rc c m).events = c.events ++ new
      ∧ (handleDynamicAddressMessage env rc c m).running = c.running
      ∧ threadStarts new ≤ 1 ∧ assignments new ≤ 1
      ∧ (env.rendersNonEmpty → ∀ a, Event.tunThreadStart a ∈ new → a ≠ []) := by
  unfold handleDynamicAddressMessage
  by_cases hlen : m.buffer.length ≠ env.sizeofDynamicAddressHeader
  · refine ⟨[], ?_, ?_, by decide, by decide, ?_⟩
    · simp [hlen, Client.log]
    · simp [hlen, Client.log]
    · intro _ a ha
      simp at ha
  · by_cases hp : (env.cidrUpdate (headerCidr env m.buffer)).1 ≠ 0
    · refine ⟨[], ?_, ?_, by decide, by decide, ?_⟩
      · simp [hlen, hp, Client.log]
      · simp [hlen, hp, Client.log]
      · intro _ a ha
        simp at ha
    · simp only [hlen, hp, if_false]
      obtain ⟨new, heq, hst, hasg, haddr⟩ := startTunThread_trace env rc
        (Client.emit { c with localAddress := (env.cidrUpdate (headerCidr env m.buffer)).2.cidr }
          (Event.setLocalAddress (env.cidrUpdate (headerCidr env m.buffer)).2.cidr))
      refine ⟨Event.setLocalAddress (env.cidrUpdate (headerCidr env m.buffer)).2.cidr :: new,
        ?_, ?_, ?_, ?_, ?_⟩
      · rw [heq]
        simp [Client.emit]
      · rw [heq]
        simp [Client.emit]
      · simp only [threadStarts, List.countP_cons, Event.isThreadStart] at hst ⊢
        simpa using hst
      · simp only [assignments, List.countP_cons, Event.isAssignment] at hasg ⊢
        simp [hasg]
      · intro hne a ha
        simp at ha
        have := haddr a ha
        rw [this]
        simp only [Client.emit]
        exact hne _ (by simpa using hp)

theorem wsIteration_open_dynamic (env : Env) (c : Client) (r : WsRead) (herr : 0 < r.error)
    (hty : r.message.type = WebSocketMessageType.Open) (hla : c.localAddress = []) :
    wsIteration env c r =
      (Ctl.next, { c with
        dynamicAddress := effectiveHint env c,
        logs := c.logs ++ (if c.dynamicAddress = [] ∨ (env.cidrUpdate c.dynamicAddress).1 ≠ 0
          then [LogLevel.warn] else []),
        events := c.events ++
          [Event.wsWrite (dynamicAddressRecord env (effectiveHint env c) c.password)] }) := by
  have h0 : r.error ≠ 0 := by omega
  have h1 : ¬ r.error < 0 := by omega
  unfold wsIteration
  simp only [h0, h1, if_false, hty, hla, List.isEmpty_nil, Bool.not_true, Bool.false_eq_true]
  by_cases hd : c.dynamicAddress = []
  · simp [hd, effectiveHint, sendDynamicAddressMessage, Client.emit, Client.log,
      dynamicAddressRecord, DynamicAddressHeader.updateHash, hla]
  · by_cases hp : (env.cidrUpdate c.dynamicAddress).1 = 0
    · have hemp : c.dynamicAddress.isEmpty = false := by
        cases hc : c.dynamicAddress with
        | nil => exact absurd hc hd
        | cons _ _ => rfl
      simp [hd, hp, hemp, effectiveHint, sendDynamicAddressMessage, Client.emit,
        dynamicAddressRecord, DynamicAddressHeader.updateHash]
      rw [← hla]
    · simp [hd, hp, effectiveHint, sendDynamicAddressMessage, Client.emit, Client.log,
        dynamicAddressRecord, DynamicAddressHeader.updateHash, hla]

theorem stepFacts_nil (env : Env) (c c1 : Client) (r : WsRead) (he : c1.events = c.events)
    (hr : c1.running = c.running) (hl : c1.localAddress = c.localAddress) :
    StepFacts env c r c1 [] := by
  refine ⟨by simp [he], hr, by simp [threadStarts], by simp [assignments], fun _ => hl, ?_⟩
  intro _ a ha
  simp at ha

theorem wsIteration_trace (env : Env) (c : Client) (r : WsRead) :
    ∃ new, StepFacts env c r (wsIteration env c r).2 new := by
  unfold wsIteration
  by_cases h0 : r.error = 0
  · exact ⟨[], by simpa [h0] using stepFacts_nil env c c r rfl rfl rfl⟩
  · by_cases h1 : r.error < 0
    · exact ⟨[], by simpa [h0, h1] using stepFacts_nil env c (c.log LogLevel.critical) r rfl rfl rfl⟩
    · have hpos : 0 < r.error := by omega
      simp only [h0, h1, if_false]
      cases hty : r.message.type
      · -- Message
        simp only []
        by_cases hf : front r.message.buffer = env.TYPE_FORWARD
        · simp only [hf, if_true]
          obtain ⟨new, he, hr, hl, hs, ha⟩ := handleForwardMessage_trace env c r.message
          refine ⟨new, he, hr, by omega, by omega, fun _ => hl, ?_⟩
          intro _ a hmem
          exfalso
          have : 0 < threadStarts new :=
            List.countP_pos_iff.mpr ⟨_, hmem, rfl⟩
          omega
        · simp only [hf, if_false]
          by_cases hd : front r.message.buffer = env.TYPE_DYNAMIC_ADDRESS
          · simp only [hd, if_true]
            obtain ⟨new, he, hr, hs, ha, hne⟩ :=
              handleDynamicAddressMessage_trace env r.tun c r.message
            have hda : r.isDynamicAddress env = true := by
              simp [WsRead.isDynamicAddress, hpos, hty, hd]
            have hbr : r.isBringUpRequest env = true := by
              simp [WsRead.isBringUpRequest, hpos, hty, hd]
            refine ⟨new, he, hr, by simpa [hbr] using hs, by simpa [hda] using ha, ?_, hne⟩
            intro h
            rw [hda] at h
            cases h
          · simp only [hd, if_false]
            exact ⟨[], stepFacts_nil env c (c.log LogLevel.warn) r rfl rfl rfl⟩
      · -- Open
        simp only []
        have hbr : r.isBringUpRequest env = true := by
          simp [WsRead.isBringUpRequest, hpos, hty]
        by_cases hla : c.localAddress = []
        · have hw := wsIteration_open_dynamic env c r hpos hty hla
          unfold wsIteration at hw
          simp only [h0, h1, if_false, hty] at hw
          rw [hw]
          refine ⟨[Event.wsWrite (dynamicAddressRecord env (effectiveHint env c) c.password)],
            rfl, rfl, by simp [threadStarts, Event.isThreadStart],
            by simp [assignments, Event.isAssignment], fun _ => rfl, ?_⟩
          intro _ a ha
          simp at ha
        · have hne : (!c.localAddress.isEmpty) = true := by
            cases hc : c.localAddress with
            | nil => exact absurd hc hla
            | cons _ _ => rfl
          simp only [hne, if_true]
          obtain ⟨new, heq, hs, ha, haddr⟩ := startTunThread_trace env r.tun c
          refine ⟨new, ?_, ?_, by simpa [hbr] using hs, by omega, ?_, ?_⟩
          · split
            · rw [heq]
            · split
              · rw [heq]; rfl
              · rw [heq]
          · split
            · rw [heq]
            · split
              · rw [heq]; rfl
              · rw [heq]
          · intro _
            split
            · rw [heq]
            · split
              · rw [heq]; rfl
              · rw [heq]
          · intro _ a hmem
            rw [haddr a hmem]
            exact hla
      · exact ⟨[], stepFacts_nil env c (c.log LogLevel.info) r rfl rfl rfl⟩
      · exact ⟨[], stepFacts_nil env c (c.log LogLevel.critical) r rfl rfl rfl⟩

theorem runFacts_of_step (env : Env) (c c1 : Client) (r : WsRead) (rs : List WsRead)
    (new : List Event) (h : StepFacts env c r c1 new) : RunFacts env c (r :: rs) c1 new := by
  obtain ⟨he, _, hs, ha, hl, hne⟩ := h
  refine ⟨he, ?_, ?_, ?_, hne⟩
  · rw [List.countP_cons]
    omega
  · rw [List.countP_cons]
    omega
  · intro hz
    rw [List.countP_cons] at hz
    apply hl
    by_contra hcon
    simp only [Bool.not_eq_false] at hcon
    simp [hcon] at hz

theorem runFacts_shutdown (env : Env) (c c1 : Client) (reads : List WsRead) (new : List Event)
    (h : RunFacts env c reads c1 new) :
    RunFacts env c reads (shutdown c1) (new ++ [Event.candyShutdown]) := by
  obtain ⟨he, hs, ha, hl, hne⟩ := h
  refine ⟨?_, ?_, ?_, hl, ?_⟩
  · simp [shutdown, Client.emit, he]
  · simpa [threadStarts, List.countP_append, Event.isThreadStart] using hs
  · simpa [assignments, List.countP_append, Event.isAssignment] using ha
  · intro hr a hmem
    simp at hmem
    exact hne hr a hmem

theorem runFacts_nil (env : Env) (c : Client) (reads : List WsRead) :
    RunFacts env c reads c [] := by
  refine ⟨by simp, by simp [threadStarts], by simp [assignments], fun _ => rfl, ?_⟩
  intro _ a ha
  simp at ha

theorem handleWebSocketMessage_trace (env : Env) (reads : List WsRead) :
    ∀ c : Client, ∃ new, RunFacts env c reads (handleWebSocketMessage env c reads) new := by
  induction reads with
  | nil =>
    intro c
    unfold handleWebSocketMessage
    by_cases hrun : c.running = true
    · simp only [hrun, if_true]
      exact ⟨[], runFacts_nil env c []⟩
    · simp only [hrun, if_false]
      exact ⟨_, by simpa using runFacts_shutdown env c c [] [] (runFacts_nil env c [])⟩
  | cons r rs ih =>
    intro c
    unfold handleWebSocketMessage
    by_cases hrun : c.running = true
    · simp only [hrun, if_true]
      obtain ⟨new, hstep⟩ := wsIteration_trace env c r
      rcases hit : wsIteration env c r with ⟨ctl, c1⟩
      rw [hit] at hstep
      simp only at hstep
      cases ctl
      · simp only []
        obtain ⟨new2, he2, hs2, ha2, hl2, hne2⟩ := ih c1
        obtain ⟨he, hr, hs, ha, hl, hne⟩ := hstep
        refine ⟨new ++ new2, ?_, ?_, ?_, ?_, ?_⟩
        · rw [he2, he, List.append_assoc]
        · rw [List.countP_cons]
          simp only [threadStarts, List.countP_append] at hs hs2 ⊢
          omega
        · rw [List.countP_cons]
          simp only [assignments, List.countP_append] at ha ha2 ⊢
          omega
        · intro hz
          rw [List.countP_cons] at hz
          have hz1 : rs.countP (WsRead.isDynamicAddress env) = 0 := by omega
          have hz2 : r.isDynamicAddress env = false := by
            by_contra hcon
            simp only [Bool.not_eq_false] at hcon
            simp [hcon] at hz
          rw [hl2 hz1, hl hz2]
        · intro hr2 a hmem
          rcases List.mem_append.mp hmem with h | h
          · exact hne hr2 a h
          · exact hne2 hr2 a h
      · simp only []
        exact ⟨_, runFacts_shutdown env c c1 (r :: rs) new (runFacts_of_step env c c1 r rs new hstep)⟩
      · simp only []
        exact ⟨new, runFacts_of_step env c c1 r rs new hstep⟩
    · simp only [hrun, if_false]
      exact ⟨_, by simpa using runFacts_shutdown env c c (r :: rs) [] (runFacts_nil env c _)⟩

theorem threadFacts_trans (c c1 c2 : Client) (h1 : ThreadFacts c c1) (h2 : ThreadFacts c1 c2) :
    ThreadFacts c c2 := by
  obtain ⟨a1, b1⟩ := h1
  obtain ⟨a2, b2⟩ := h2
  refine ⟨fun h => a2 (a1 h), ?_⟩
  intro ht
  obtain ⟨t1, e2, s2, l2⟩ := b2 ht
  obtain ⟨t0, e1, s1, l1⟩ := b1 t1
  refine ⟨t0, ?_, ?_, ?_⟩
  · intro h
    rw [e2 (a1 h), e1 h]
  · intro h
    by_cases hlt : threadStarts c.events < threadStarts c1.events
    · exact a2 (s1 hlt)
    · exact s2 (by omega)
  · by_cases hlt : threadStarts c.events < threadStarts c1.events
    · rw [e2 (s1 hlt)]
      exact l1
    · omega

theorem threadFacts_noStart (c c1 : Client) (new : List Event)
    (he : c1.events = c.events ++ new) (hs : threadStarts new = 0)
    (ht : c1.tunThread = c.tunThread) (hm : c1.terminated = false → c.terminated = false) :
    ThreadFacts c c1 := by
  have hcount : threadStarts c1.events = threadStarts c.events := by
    rw [he]
    simp only [threadStarts, List.countP_append] at hs ⊢
    omega
  refine ⟨fun h => by rw [ht]; exact h, fun h => ⟨hm h, fun _ => hcount, ?_, ?_⟩⟩
  · intro hlt
    omega
  · omega

theorem threadFacts_log (c : Client) (l : LogLevel) : ThreadFacts c (c.log l) :=
  threadFacts_noStart c (c.log l) [] (by simp [Client.log]) rfl rfl (fun h => h)

theorem threadFacts_refl (c : Client) : ThreadFacts c c :=
  threadFacts_noStart c c [] (by simp) rfl rfl (fun h => h)

theorem threadFacts_shutdown (c : Client) : ThreadFacts c (shutdown c) :=
  threadFacts_noStart c (shutdown c) [Event.candyShutdown] rfl
    (by simp [threadStarts, Event.isThreadStart]) rfl (fun h => h)

theorem startTunThread_thread (env : Env) (rc : TunResults) (c : Client) :
    ThreadFacts c (startTunThread env rc c).2 := by
  by_cases hok : rc.allOk
  · cases hthr : c.tunThread
    · rw [startTunThread_ok env rc c hok hthr]
      refine ⟨fun _ => rfl, fun ht => ⟨ht, fun h => by simp [hthr] at h, fun _ => rfl, ?_⟩⟩
      simp [threadStarts, List.countP_append, bringUpEvents, List.countP_cons,
        Event.isThreadStart]
    · rw [startTunThread_twice env rc c hok hthr]
      refine ⟨fun _ => hthr, fun ht => ?_⟩
      simp at ht
  · obtain ⟨new, heq, _, hcfg⟩ := startTunThread_fail env rc c hok
    have hs : threadStarts new = 0 := by
      unfold threadStarts
      rw [List.countP_eq_zero]
      intro e he
      have := hcfg e he
      cases e <;> simp_all [Event.isTunConfig, Event.isThreadStart]
    rw [heq]
    exact threadFacts_noStart c _ new rfl hs rfl (fun h => h)

theorem handleForwardMessage_thread (env : Env) (c : Client) (m : WebSocketMessage) :
    ThreadFacts c (handleForwardMessage env c m) := by
  unfold handleForwardMessage
  by_cases hs : m.buffer.length < sizeofForwardHeaderType
  · simp only [hs, if_true]
    refine ⟨fun h => ?_, fun ht => ?_⟩
    · split <;> exact h
    · simp [Client.terminate] at ht
  · simp only [hs, if_false]
    split
    · exact threadFacts_noStart c _ [Event.tunWrite (m.buffer.drop sizeofForwardHeaderType)] rfl
        (by simp [threadStarts, Event.isThreadStart]) rfl (fun h => h)
    · exact threadFacts_noStart c _ [Event.tunWrite (m.buffer.drop sizeofForwardHeaderType)] rfl
        (by simp [threadStarts, Event.isThreadStart]) rfl (fun h => h)

theorem handleDynamicAddressMessage_thread (env : Env) (rc : TunResults) (c : Client)
    (m : WebSocketMessage) : ThreadFacts c (handleDynamicAddressMessage env rc c m) := by
  unfold handleDynamicAddressMessage
  by_cases hlen : m.buffer.length ≠ env.sizeofDynamicAddressHeader
  · rw [if_pos hlen]
    exact threadFacts_trans _ _ _ (threadFacts_log c _) (threadFacts_log _ _)
  · by_cases hp : (env.cidrUpdate (headerCidr env m.buffer)).1 ≠ 0
    · rw [if_neg hlen, if_pos hp]
      exact threadFacts_log c _
    · simp only [hlen, hp, if_false]
      refine threadFacts_trans _ _ _ ?_ (startTunThread_thread env rc _)
      exact threadFacts_noStart c _
        [Event.setLocalAddress (env.cidrUpdate (headerCidr env m.buffer)).2.cidr] rfl
        (by simp [threadStarts, Event.isThreadStart]) rfl (fun h => h)

theorem wsIteration_thread (env : Env) (c : Client) (r : WsRead) :
    ThreadFacts c (wsIteration env c r).2 := by
  unfold wsIteration
  by_cases h0 : r.error = 0
  · simp only [h0, if_true]
    exact threadFacts_refl c
  · by_cases h1 : r.error < 0
    · simp only [h0, h1, if_true, if_false]
      exact threadFacts_log c _
    · simp only [h0, h1, if_false]
      cases hty : r.message.type
      · simp only []
        by_cases hf : front r.message.buffer = env.TYPE_FORWARD
        · simp only [hf, if_true]
          exact handleForwardMessage_thread env c r.message
        · simp only [hf, if_false]
          by_cases hd : front r.message.buffer = env.TYPE_DYNAMIC_ADDRESS
          · simp only [hd, if_true]
            exact handleDynamicAddressMessage_thread env r.tun c r.message
          · simp only [hd, if_false]
            exact threadFacts_log c _
      · simp only []
        by_cases hla : c.localAddress = []
        · have hw := wsIteration_open_dynamic env c r (by omega) hty hla
          unfold wsIteration at hw
          simp only [h0, h1, if_false, hty] at hw
          rw [hw]
          exact threadFacts_noStart c _
            [Event.wsWrite (dynamicAddressRecord env (effectiveHint env c) c.password)] rfl
            (by simp [threadStarts, Event.isThreadStart]) rfl (fun h => h)
        · have hne : (!c.localAddress.isEmpty) = true := by
            cases hc : c.localAddress with
            | nil => exact absurd hc hla
            | cons _ _ => rfl
          simp only [hne, if_true]
          split
          · exact startTunThread_thread env r.tun c
          · split
            · exact threadFacts_trans _ _ _ (startTunThread_thread env r.tun c)
                (threadFacts_log _ _)
            · exact startTunThread_thread env r.tun c
      · exact threadFacts_log c _
      · exact threadFacts_log c _

theorem handleWebSocketMessage_thread (env : Env) (reads : List WsRead) :
    ∀ c : Client, ThreadFacts c (handleWebSocketMessage env c reads) := by
  induction reads with
  | nil =>
    intro c
    unfold handleWebSocketMessage
    split
    · exact threadFacts_refl c
    · exact threadFacts_shutdown c
  | cons r rs ih =>
    intro c
    unfold handleWebSocketMessage
    split
    · have hstep := wsIteration_thread env c r
      rcases hit : wsIteration env c r with ⟨ctl, c1⟩
      rw [hit] at hstep
      cases ctl
      · exact threadFacts_trans _ _ _ hstep (ih c1)
      · exact threadFacts_trans _ _ _ hstep (threadFacts_shutdown c1)
      · exact hstep
    · exact threadFacts_shutdown c

/-- C1. Outbound Loop: a buffer read from the interface is written to the transport if and
only if it is at least as long as an IPv4 header, its version nibble is 4 and its source
address in host order equals the address of the interface; what is written is the Forward type
byte followed by the buffer, whatever `message.buffer` held before.  Over a whole run the
transport writes are exactly the accepted buffers, in order.  After a successful bring-up the
address of the interface is the IP part of the effective local address. -/
theorem outbound_loop_forwards_iff_valid (env : Env) (c : Client) (prev : Bytes) (r : TunRead)
    (herr : 0 < r.error) :
    tunIteration env c prev r =
        (if sizeofIPv4Header ≤ r.buffer.length ∧ version_ihl r.buffer >>> 4 = 4 ∧
            netToHostSaddr r.buffer = c.tun.getIP env then
          (Ctl.next, c.emit (Event.wsWrite (env.TYPE_FORWARD :: r.buffer)),
            env.TYPE_FORWARD :: r.buffer)
        else (Ctl.next, c, prev))
      ∧ (∀ reads : List TunRead, c.running = true → (∀ x ∈ reads, 0 ≤ x.error) →
          (handleTunMessage env c prev reads).events = c.events ++ forwarded env c reads)
      ∧ (∀ (rc : TunResults) (c0 : Client), rc.allOk →
          (startTunThread env rc c0).2.tun.getIP env = (env.cidrUpdate c0.getAddress).2.ip) := by
  refine ⟨?_, ?_, ?_⟩
  · exact tunIteration_eq env c prev r herr
  · intro reads hrun hall
    exact handleTunMessage_events env reads c prev hrun hall
  · intro rc c0 hok
    cases hthr : c0.tunThread
    · rw [startTunThread_ok env rc c0 hok hthr]
      rfl
    · rw [startTunThread_twice env rc c0 hok hthr]
      rfl

/-- C1, worked example: with the interface up at 10.0.0.5, a packet from 10.0.0.5 is written
behind the type byte and the stale contents of `message.buffer` are gone. -/
theorem outbound_loop_forwards_iff_valid_witness :
    (0 : Int) < 1 ∧
      tunIteration demoEnv demoUp [9, 9, 9] { error := 1, buffer := demoPacket 10 0 0 5 [7, 7] } =
        (Ctl.next,
          demoUp.emit (Event.wsWrite (1 :: demoPacket 10 0 0 5 [7, 7])),
          1 :: demoPacket 10 0 0 5 [7, 7]) :=
  ⟨by decide,
    (outbound_loop_forwards_iff_valid demoEnv demoUp [9, 9, 9]
      { error := 1, buffer := demoPacket 10 0 0 5 [7, 7] } (by decide)).1.trans (by decide)⟩

/-- C2. Inbound forwarding: for a Data payload that is not empty and whose first byte is the
Forward type, one pass of the Inbound Loop performs exactly one interface write, of the payload
without its first byte (one byte shorter), whatever the rest of the payload is and however
short it is; nothing else changes but the log, and the loop goes on with the next read. -/
theorem inbound_forward_strips_type_byte (env : Env) (c : Client) (r : WsRead)
    (halive : c.terminated = false) (herr : 0 < r.error)
    (hty : r.message.type = WebSocketMessageType.Message)
    (hlen : 1 ≤ r.message.buffer.length)
    (hfront : front r.message.buffer = env.TYPE_FORWARD) :
    wsIteration env c r =
        (Ctl.next, { c with
          events := c.events ++ [Event.tunWrite (r.message.buffer.drop 1)],
          logs := c.logs ++
            (if r.message.buffer.length < env.sizeofForwardHeader then [LogLevel.warn] else []) })
      ∧ (r.message.buffer.drop 1).length = r.message.buffer.length - 1
      ∧ (c.running = true → ∀ rs : List WsRead,
          handleWebSocketMessage env c (r :: rs) =
            handleWebSocketMessage env { c with
              events := c.events ++ [Event.tunWrite (r.message.buffer.drop 1)],
              logs := c.logs ++
                (if r.message.buffer.length < env.sizeofForwardHeader then [LogLevel.warn]
                  else []) } rs) := by
  have h0 : r.error ≠ 0 := by omega
  have h1 : ¬ r.error < 0 := by omega
  have hs : ¬ r.message.buffer.length < sizeofForwardHeaderType := by
    unfold sizeofForwardHeaderType
    omega
  have hit : wsIteration env c r =
      (Ctl.next, { c with
        events := c.events ++ [Event.tunWrite (r.message.buffer.drop 1)],
        logs := c.logs ++
          (if r.message.buffer.length < env.sizeofForwardHeader then [LogLevel.warn] else []) }) := by
    unfold wsIteration
    simp only [h0, h1, if_false, hty, hfront, if_true, handleForwardMessage, hs]
    by_cases hw : r.message.buffer.length < env.sizeofForwardHeader
    · simp [hw, Client.emit, Client.log, halive, sizeofForwardHeaderType]
    · simp [hw, Client.emit, halive, sizeofForwardHeaderType]
  refine ⟨hit, by simp, ?_⟩
  intro hrun rs
  rw [handleWebSocketMessage]
  simp only [hrun, if_true, hit]

/-- C2, worked example: a three-byte Forward payload is written to the interface as its last
two bytes, although it is far shorter than an IPv4 header. -/
theorem inbound_forward_strips_type_byte_witness :
    wsIteration demoEnv (demoClient str_10_0_0_5_24 [])
        { error := 1, message := { type := WebSocketMessageType.Message, buffer := [1, 8, 9] },
          tun := tunOk } =
      (Ctl.next, { demoClient str_10_0_0_5_24 [] with
        events := [Event.tunWrite [8, 9]], logs := [LogLevel.warn] }) :=
  (inbound_forward_strips_type_byte demoEnv (demoClient str_10_0_0_5_24 [])
    { error := 1, message := { type := WebSocketMessageType.Message, buffer := [1, 8, 9] },
      tun := tunOk } (by decide) (by decide) (by decide) (by decide) (by decide)).1.trans
    (by decide)

/-- C3. A Data payload typed DynamicAddress whose length is not the record size, or whose CIDR
field the reader rejects, is dropped: the pass changes nothing but the log (so the effective
local address, the interface, the thread handle and the trace of collaborator calls stay as
they were, nothing being written to the transport) and the Inbound Loop goes on. -/
theorem malformed_dynamic_address_dropped (env : Env) (c : Client) (r : WsRead)
    (halive : c.terminated = false) (herr : 0 < r.error)
    (hty : r.message.type = WebSocketMessageType.Message)
    (hdistinct : env.TYPE_FORWARD ≠ env.TYPE_DYNAMIC_ADDRESS)
    (hfront : front r.message.buffer = env.TYPE_DYNAMIC_ADDRESS)
    (hbad : r.message.buffer.length ≠ env.sizeofDynamicAddressHeader
      ∨ (env.cidrUpdate (headerCidr env r.message.buffer)).1 ≠ 0) :
    wsIteration env c r =
        (Ctl.next, { c with
          logs := c.logs ++
            (if r.message.buffer.length ≠ env.sizeofDynamicAddressHeader
              then [LogLevel.warn, LogLevel.debug] else [LogLevel.warn]) })
      ∧ (wsIteration env c r).2.getAddress = c.getAddress
      ∧ (wsIteration env c r).2.tun = c.tun
      ∧ (wsIteration env c r).2.tunThread = c.tunThread
      ∧ (wsIteration env c r).2.events = c.events
      ∧ (c.running = true → ∀ rs : List WsRead,
          handleWebSocketMessage env c (r :: rs) =
            handleWebSocketMessage env (wsIteration env c r).2 rs) := by
  have h0 : r.error ≠ 0 := by omega
  have h1 : ¬ r.error < 0 := by omega
  have hf : front r.message.buffer ≠ env.TYPE_FORWARD := by
    rw [hfront]
    exact fun h => hdistinct h.symm
  have hit : wsIteration env c r =
      (Ctl.next, { c with
        logs := c.logs ++
          (if r.message.buffer.length ≠ env.sizeofDynamicAddressHeader
            then [LogLevel.warn, LogLevel.debug] else [LogLevel.warn]) }) := by
    unfold wsIteration
    simp only [h0, h1, if_false, hty]
    rw [if_neg hf, if_pos hfront]
    simp only [handleDynamicAddressMessage]
    by_cases hl : r.message.buffer.length ≠ env.sizeofDynamicAddressHeader
    · rw [if_pos hl, if_pos hl]
      simp [Client.log, halive]
    · have hp : (env.cidrUpdate (headerCidr env r.message.buffer)).1 ≠ 0 := by
        rcases hbad with h | h
        · exact absurd h hl
        · exact h
      rw [if_neg hl, if_neg hl, if_pos hp]
      simp [Client.log, halive]
  refine ⟨hit, by rw [hit]; rfl, by rw [hit], by rw [hit], by rw [hit], ?_⟩
  intro hrun rs
  rw [handleWebSocketMessage]
  simp only [hrun, if_true, hit]

/-- C3, worked example: a DynamicAddress record one byte too long is dropped. -/
theorem malformed_dynamic_address_dropped_witness :
    wsIteration demoEnv (demoClient [] str_10_0_0_0_24)
        { error := 1,
          message := { type := WebSocketMessageType.Message,
                       buffer := demoResponse str_10_0_0_7_24 ++ [0] },
          tun := tunOk } =
      (Ctl.next, { demoClient [] str_10_0_0_0_24 with
        logs := [LogLevel.warn, LogLevel.debug] }) :=
  (malformed_dynamic_address_dropped demoEnv (demoClient [] str_10_0_0_0_24)
    { error := 1,
      message := { type := WebSocketMessageType.Message,
                   buffer := demoResponse str_10_0_0_7_24 ++ [0] },
      tun := tunOk } (by decide) (by decide) (by decide) (by decide) (by decide)
      (Or.inl (by decide))).1.trans (by decide)

theorem startTunThread_localAddress (env : Env) (rc : TunResults) (c : Client) :
    (startTunThread env rc c).2.localAddress = c.localAddress := by
  obtain ⟨new, heq, _⟩ := startTunThread_trace env rc c
  rw [heq]

theorem handleDynamicAddressMessage_ok (env : Env) (rc : TunResults) (c : Client)
    (m : WebSocketMessage) (hlen : m.buffer.length = env.sizeofDynamicAddressHeader)
    (hparse : (env.cidrUpdate (headerCidr env m.buffer)).1 = 0) :
    handleDynamicAddressMessage env rc c m =
      (startTunThread env rc
        (Client.emit { c with localAddress := (env.cidrUpdate (headerCidr env m.buffer)).2.cidr }
          (Event.setLocalAddress (env.cidrUpdate (headerCidr env m.buffer)).2.cidr))).2 := by
  unfold handleDynamicAddressMessage
  rw [if_neg (fun h => h hlen), if_neg (fun h => h hparse)]

/-- C4, counterexample: a dynamic session that was assigned "10.0.0.7/24" (interface up,
Outbound Loop created, Auth sent) receives a second well-formed DynamicAddress record, of the
exact record size, carrying "10.0.0.5/24", and every bring-up step succeeds again.  The pass
assigns the address, brings the interface up and constructs the thread, and the
move-assignment onto the still joinable `tunThread` calls `std::terminate`: no Auth record is
written for this record and the loop does not go on. -/
theorem dynamic_assignment_auth_counterexample :
    (handleWebSocketMessage demoEnv (demoClient [] str_10_0_0_0_24)
        [demoOpen, demoAssign str_10_0_0_7_24 tunOk]).terminated = false
      ∧ (demoAssign str_10_0_0_5_24 tunOk).message.buffer.length
          = demoEnv.sizeofDynamicAddressHeader
      ∧ (demoEnv.cidrUpdate
          (headerCidr demoEnv (demoAssign str_10_0_0_5_24 tunOk).message.buffer)).1 = 0
      ∧ (demoAssign str_10_0_0_5_24 tunOk).tun.allOk
      ∧ wsIteration demoEnv
          (handleWebSocketMessage demoEnv (demoClient [] str_10_0_0_0_24)
            [demoOpen, demoAssign str_10_0_0_7_24 tunOk])
          (demoAssign str_10_0_0_5_24 tunOk) =
        (Ctl.dead,
          { handleWebSocketMessage demoEnv (demoClient [] str_10_0_0_0_24)
              [demoOpen, demoAssign str_10_0_0_7_24 tunOk] with
            localAddress := str_10_0_0_5_24,
            tun := tunUpWith strCandy str_10_0_0_5_24,
            terminated := true,
            events :=
              (handleWebSocketMessage demoEnv (demoClient [] str_10_0_0_0_24)
                [demoOpen, demoAssign str_10_0_0_7_24 tunOk]).events ++
              [Event.setLocalAddress str_10_0_0_5_24, Event.tunSetName strCandy,
                Event.tunSetAddress str_10_0_0_5_24, Event.tunSetMTU 1400,
                Event.tunSetTimeout 1, Event.tunUp, Event.tunThreadStart str_10_0_0_5_24,
                Event.stdTerminate] }) := by
  decide

/-- C4, amended. Dynamic-address assignment: for a DynamicAddress record of exactly the record
size whose CIDR field reads as R, every bring-up step succeeding.  In every state the pass
first assigns R to the effective local address, then names the interface, gives it the
address R, sets MTU and timeout, brings it up and creates the Outbound Loop at a moment when
`getAddress` returns R, so the Outbound Loop is never created before `getAddress` returns R;
`getAddress` returns R afterwards.  What follows the creation depends on the thread handle: in
a session that has no Outbound Loop yet exactly one Auth record is written, built from the IP
part of R with the configured password, and the loop goes on; when `tunThread` is already
joinable `std::terminate` is called instead, no Auth record is written and the loop ends. -/
theorem dynamic_address_assigned_before_bring_up (env : Env) (c : Client) (r : WsRead)
    (halive : c.terminated = false) (herr : 0 < r.error)
    (hty : r.message.type = WebSocketMessageType.Message)
    (hdistinct : env.TYPE_FORWARD ≠ env.TYPE_DYNAMIC_ADDRESS)
    (hfront : front r.message.buffer = env.TYPE_DYNAMIC_ADDRESS)
    (hlen : r.message.buffer.length = env.sizeofDynamicAddressHeader)
    (hparse : (env.cidrUpdate (headerCidr env r.message.buffer)).1 = 0)
    (hok : r.tun.allOk) :
    (c.tunThread = false →
        wsIteration env c r =
          (Ctl.next, { c with
            localAddress := responseCidr env r.message.buffer,
            tun := tunUpWith (interfaceName c) (responseCidr env r.message.buffer),
            tunThread := true,
            events := c.events ++
              [Event.setLocalAddress (responseCidr env r.message.buffer),
                Event.tunSetName (interfaceName c),
                Event.tunSetAddress (responseCidr env r.message.buffer),
                Event.tunSetMTU 1400, Event.tunSetTimeout 1, Event.tunUp,
                Event.tunThreadStart (responseCidr env r.message.buffer),
                Event.wsWrite (env.rawAuthHeader
                  { ip := (env.cidrUpdate (responseCidr env r.message.buffer)).2.ip,
                    hash := some c.password })] }))
      ∧ (c.tunThread = true →
        wsIteration env c r =
          (Ctl.dead, { c with
            localAddress := responseCidr env r.message.buffer,
            tun := tunUpWith (interfaceName c) (responseCidr env r.message.buffer),
            terminated := true,
            events := c.events ++
              [Event.setLocalAddress (responseCidr env r.message.buffer),
                Event.tunSetName (interfaceName c),
                Event.tunSetAddress (responseCidr env r.message.buffer),
                Event.tunSetMTU 1400, Event.tunSetTimeout 1, Event.tunUp,
                Event.tunThreadStart (responseCidr env r.message.buffer),
                Event.stdTerminate] }))
      ∧ (wsIteration env c r).2.events =
          c.events ++
            [Event.setLocalAddress (responseCidr env r.message.buffer),
              Event.tunSetName (interfaceName c),
              Event.tunSetAddress (responseCidr env r.message.buffer),
              Event.tunSetMTU 1400, Event.tunSetTimeout 1, Event.tunUp,
              Event.tunThreadStart (responseCidr env r.message.buffer)] ++
            (if c.tunThread then [Event.stdTerminate]
              else [Event.wsWrite (env.rawAuthHeader
                { ip := (env.cidrUpdate (responseCidr env r.message.buffer)).2.ip,
                  hash := some c.password })])
      ∧ (wsIteration env c r).2.getAddress = responseCidr env r.message.buffer := by
  have h0 : r.error ≠ 0 := by omega
  have h1 : ¬ r.error < 0 := by omega
  have hf : front r.message.buffer ≠ env.TYPE_FORWARD := by
    rw [hfront]
    exact fun h => hdistinct h.symm
  have hfresh : c.tunThread = false →
      wsIteration env c r =
        (Ctl.next, { c with
          localAddress := responseCidr env r.message.buffer,
          tun := tunUpWith (interfaceName c) (responseCidr env r.message.buffer),
          tunThread := true,
          events := c.events ++
            [Event.setLocalAddress (responseCidr env r.message.buffer),
              Event.tunSetName (interfaceName c),
              Event.tunSetAddress (responseCidr env r.message.buffer),
              Event.tunSetMTU 1400, Event.tunSetTimeout 1, Event.tunUp,
              Event.tunThreadStart (responseCidr env r.message.buffer),
              Event.wsWrite (env.rawAuthHeader
                { ip := (env.cidrUpdate (responseCidr env r.message.buffer)).2.ip,
                  hash := some c.password })] }) := by
    intro hthr
    unfold wsIteration
    simp only [h0, h1, if_false, hty]
    rw [if_neg hf, if_pos hfront]
    rw [handleDynamicAddressMessage_ok env r.tun c r.message hlen hparse]
    rw [startTunThread_ok env r.tun _ hok (by simpa [Client.emit] using hthr)]
    simp [Client.emit, halive, bringUpEvents, authRecord, responseCidr, interfaceName]
  have hagain : c.tunThread = true →
      wsIteration env c r =
        (Ctl.dead, { c with
          localAddress := responseCidr env r.message.buffer,
          tun := tunUpWith (interfaceName c) (responseCidr env r.message.buffer),
          terminated := true,
          events := c.events ++
            [Event.setLocalAddress (responseCidr env r.message.buffer),
              Event.tunSetName (interfaceName c),
              Event.tunSetAddress (responseCidr env r.message.buffer),
              Event.tunSetMTU 1400, Event.tunSetTimeout 1, Event.tunUp,
              Event.tunThreadStart (responseCidr env r.message.buffer),
              Event.stdTerminate] }) := by
    intro hthr
    unfold wsIteration
    simp only [h0, h1, if_false, hty]
    rw [if_neg hf, if_pos hfront]
    rw [handleDynamicAddressMessage_ok env r.tun c r.message hlen hparse]
    rw [startTunThread_twice env r.tun _ hok (by simpa [Client.emit] using hthr)]
    simp [Client.emit, responseCidr, interfaceName]
  refine ⟨hfresh, hagain, ?_, ?_⟩
  · cases hthr : c.tunThread
    · rw [hfresh hthr]
      simp
    · rw [hagain hthr]
      simp
  · cases hthr : c.tunThread
    · rw [hfresh hthr]
      rfl
    · rw [hagain hthr]
      rfl

/-- C4 amended, worked example: in the session that has no Outbound Loop yet the response
"10.0.0.7/24" makes `getAddress` return "10.0.0.7/24" and is followed by one Auth record for
10.0.0.7. -/
theorem dynamic_address_assigned_before_bring_up_witness :
    (wsIteration demoEnv (demoClient [] str_10_0_0_0_24)
        (demoAssign str_10_0_0_7_24 tunOk)).2.events =
      [Event.setLocalAddress str_10_0_0_7_24, Event.tunSetName strCandy,
        Event.tunSetAddress str_10_0_0_7_24, Event.tunSetMTU 1400, Event.tunSetTimeout 1,
        Event.tunUp, Event.tunThreadStart str_10_0_0_7_24,
        Event.wsWrite (0 :: 10 :: 0 :: 0 :: 7 :: demoTag (some strSecret))]
      ∧ (wsIteration demoEnv (demoClient [] str_10_0_0_0_24)
          (demoAssign str_10_0_0_7_24 tunOk)).2.getAddress = str_10_0_0_7_24 :=
  ⟨(congrArg (fun p => p.2.events)
      ((dynamic_address_assigned_before_bring_up demoEnv (demoClient [] str_10_0_0_0_24)
        (demoAssign str_10_0_0_7_24 tunOk) (by decide) (by decide) (by decide) (by decide)
        (by decide) (by decide) (by decide) (by decide)).1 (by decide))).trans (by decide),
    (dynamic_address_assigned_before_bring_up demoEnv (demoClient [] str_10_0_0_0_24)
      (demoAssign str_10_0_0_7_24 tunOk) (by decide) (by decide) (by decide) (by decide)
      (by decide) (by decide) (by decide) (by decide)).2.2.2.trans (by decide)⟩

/-- C5, counterexample: the session configured with "10.0.0.5/24" whose interface is already
up and whose Outbound Loop exists receives an Open envelope, every bring-up step succeeding.
The pass brings the interface up again and constructs the thread, and the move-assignment
onto the still joinable `tunThread` calls `std::terminate`: no Auth record is written on this
Open and the loop does not go on. -/
theorem static_open_auth_counterexample :
    demoUp.localAddress = str_10_0_0_5_24 ∧ demoUp.terminated = false
      ∧ demoUp.tunThread = true ∧ demoOpen.tun.allOk
      ∧ wsIteration demoEnv demoUp demoOpen =
        (Ctl.dead,
          { demoUp with
            terminated := true,
            events := demoUp.events ++
              [Event.tunSetName strCandy, Event.tunSetAddress str_10_0_0_5_24,
                Event.tunSetMTU 1400, Event.tunSetTimeout 1, Event.tunUp,
                Event.tunThreadStart str_10_0_0_5_24, Event.stdTerminate] }) := by
  decide

/-- C5, amended. Static-address path: with a non-empty configured local address A, on the Open
envelope, every bring-up step succeeding.  In every state the pass names the interface, gives
it the address A, sets its MTU and timeout, brings it up and creates the Outbound Loop; the
interface ends up with the address A and `getAddress` still returns A.  What follows the
creation depends on the thread handle: in a session that has no Outbound Loop yet exactly one
Auth record is written, built from the IP part of A with the configured password, it is the
only transport write, so no DynamicAddress request is sent, and the loop goes on; when
`tunThread` is already joinable `std::terminate` is called instead, nothing is written to the
transport and the loop ends. -/
theorem static_address_open_brings_up (env : Env) (c : Client) (r : WsRead)
    (halive : c.terminated = false) (herr : 0 < r.error)
    (hty : r.message.type = WebSocketMessageType.Open)
    (hconf : c.localAddress ≠ []) (hok : r.tun.allOk) :
    (c.tunThread = false →
        wsIteration env c r =
          (Ctl.next, { c with
            tun := tunUpWith (interfaceName c) c.localAddress,
            tunThread := true,
            events := c.events ++
              [Event.tunSetName (interfaceName c), Event.tunSetAddress c.localAddress,
                Event.tunSetMTU 1400, Event.tunSetTimeout 1, Event.tunUp,
                Event.tunThreadStart c.localAddress,
                Event.wsWrite (env.rawAuthHeader
                  { ip := (env.cidrUpdate c.localAddress).2.ip, hash := some c.password })] }))
      ∧ (c.tunThread = true →
        wsIteration env c r =
          (Ctl.dead, { c with
            tun := tunUpWith (interfaceName c) c.localAddress,
            terminated := true,
            events := c.events ++
              [Event.tunSetName (interfaceName c), Event.tunSetAddress c.localAddress,
                Event.tunSetMTU 1400, Event.tunSetTimeout 1, Event.tunUp,
                Event.tunThreadStart c.localAddress, Event.stdTerminate] }))
      ∧ (wsIteration env c r).2.events =
          c.events ++
            [Event.tunSetName (interfaceName c), Event.tunSetAddress c.localAddress,
              Event.tunSetMTU 1400, Event.tunSetTimeout 1, Event.tunUp,
              Event.tunThreadStart c.localAddress] ++
            (if c.tunThread then [Event.stdTerminate]
              else [Event.wsWrite (env.rawAuthHeader
                { ip := (env.cidrUpdate c.localAddress).2.ip, hash := some c.password })])
      ∧ (wsIteration env c r).2.tun = tunUpWith (interfaceName c) c.localAddress
      ∧ (wsIteration env c r).2.getAddress = c.localAddress := by
  have h0 : r.error ≠ 0 := by omega
  have h1 : ¬ r.error < 0 := by omega
  have hne : (!c.localAddress.isEmpty) = true := by
    cases hc : c.localAddress with
    | nil => exact absurd hc hconf
    | cons _ _ => rfl
  have hfresh : c.tunThread = false →
      wsIteration env c r =
        (Ctl.next, { c with
          tun := tunUpWith (interfaceName c) c.localAddress,
          tunThread := true,
          events := c.events ++
            [Event.tunSetName (interfaceName c), Event.tunSetAddress c.localAddress,
              Event.tunSetMTU 1400, Event.tunSetTimeout 1, Event.tunUp,
              Event.tunThreadStart c.localAddress,
              Event.wsWrite (env.rawAuthHeader
                { ip := (env.cidrUpdate c.localAddress).2.ip, hash := some c.password })] }) := by
    intro hthr
    unfold wsIteration
    simp only [h0, h1, if_false, hty, hne, if_true]
    rw [startTunThread_ok env r.tun c hok hthr]
    simp [halive, bringUpEvents, authRecord]
  have hagain : c.tunThread = true →
      wsIteration env c r =
        (Ctl.dead, { c with
          tun := tunUpWith (interfaceName c) c.localAddress,
          terminated := true,
          events := c.events ++
            [Event.tunSetName (interfaceName c), Event.tunSetAddress c.localAddress,
              Event.tunSetMTU 1400, Event.tunSetTimeout 1, Event.tunUp,
              Event.tunThreadStart c.localAddress, Event.stdTerminate] }) := by
    intro hthr
    unfold wsIteration
    simp only [h0, h1, if_false, hty, hne, if_true]
    rw [startTunThread_twice env r.tun c hok hthr]
    simp
  refine ⟨hfresh, hagain, ?_, ?_, ?_⟩
  · cases hthr : c.tunThread
    · rw [hfresh hthr]
      simp
    · rw [hagain hthr]
      simp
  · cases hthr : c.tunThread
    · rw [hfresh hthr]
    · rw [hagain hthr]
  · cases hthr : c.tunThread
    · rw [hfresh hthr]
      rfl
    · rw [hagain hthr]
      rfl

/-- C5 amended, worked example: local address "10.0.0.5/24", password "secret", no Outbound
Loop yet; on Open exactly one transport write happens, the Auth record for 10.0.0.5. -/
theorem static_address_open_brings_up_witness :
    (wsIteration demoEnv (demoClient str_10_0_0_5_24 []) demoOpen).2.events =
      [Event.tunSetName strCandy, Event.tunSetAddress str_10_0_0_5_24, Event.tunSetMTU 1400,
        Event.tunSetTimeout 1, Event.tunUp, Event.tunThreadStart str_10_0_0_5_24,
        Event.wsWrite (0 :: 10 :: 0 :: 0 :: 5 :: demoTag (some strSecret))] :=
  (congrArg (fun p => p.2.events)
    ((static_address_open_brings_up demoEnv (demoClient str_10_0_0_5_24 []) demoOpen
      (by decide) (by decide) (by decide) (by decide) (by decide)).1 (by decide))).trans
    (by decide)

/-- C6. Dynamic-address request: on the Open envelope with an empty configured local address
the pass writes exactly one record to the transport, a DynamicAddress request whose CIDR is
the reader's rendering of the configured hint when the hint is non-empty and reads as a CIDR,
and of "0.0.0.0/0" when the hint is empty or does not read, tagged with the configured
password.  No other call is made (no Auth, no interface call, no Outbound Loop), the effective
local address stays empty, and the loop goes on. -/
theorem open_without_address_requests_one (env : Env) (c : Client) (r : WsRead)
    (herr : 0 < r.error) (hty : r.message.type = WebSocketMessageType.Open)
    (hempty : c.localAddress = []) :
    wsIteration env c r =
        (Ctl.next, { c with
          dynamicAddress := effectiveHint env c,
          logs := c.logs ++ (if c.dynamicAddress = [] ∨ (env.cidrUpdate c.dynamicAddress).1 ≠ 0
            then [LogLevel.warn] else []),
          events := c.events ++
            [Event.wsWrite (env.rawDynamicAddressHeader
              { cidr := (env.cidrUpdate (effectiveHint env c)).2.cidr,
                hash := some c.password })] })
      ∧ (c.dynamicAddress ≠ [] ∧ (env.cidrUpdate c.dynamicAddress).1 = 0 →
          effectiveHint env c = c.dynamicAddress)
      ∧ (c.dynamicAddress = [] ∨ (env.cidrUpdate c.dynamicAddress).1 ≠ 0 →
          effectiveHint env c = strAnyAddress)
      ∧ (wsIteration env c r).2.getAddress = []
      ∧ (wsIteration env c r).2.tun = c.tun
      ∧ (wsIteration env c r).2.tunThread = c.tunThread := by
  have hit := wsIteration_open_dynamic env c r herr hty hempty
  refine ⟨hit, ?_, ?_, ?_, ?_, ?_⟩
  · rintro ⟨h1, h2⟩
    simp [effectiveHint, h1, h2]
  · intro h
    simp [effectiveHint, h]
  · rw [hit]
    exact hempty
  · rw [hit]
  · rw [hit]

/-- C6, worked example: no local address and the hint "10.0.0.0/24"; on Open the only call is
one transport write, the DynamicAddress request carrying "10.0.0.0/24". -/
theorem open_without_address_requests_one_witness :
    (wsIteration demoEnv (demoClient [] str_10_0_0_0_24)
        { error := 1, message := { type := WebSocketMessageType.Open, buffer := [] },
          tun := tunOk }).2.events =
      [Event.wsWrite (2 :: (demoPad 32 str_10_0_0_0_24 ++ demoTag (some strSecret)))] :=
  (congrArg (fun p => p.2.events)
    (open_without_address_requests_one demoEnv (demoClient [] str_10_0_0_0_24)
      { error := 1, message := { type := WebSocketMessageType.Open, buffer := [] },
        tun := tunOk } (by decide) (by decide) (by decide)).1).trans (by decide)

/-- C7. Shutdown is idempotent: when `running` is false it returns 0 and leaves the session
exactly as it was, no call being made; when `running` is true it returns 0, clears `running`,
joins the threads that are joinable, brings the interface down once and disconnects the
transport once; and a second shutdown right after any shutdown returns 0 and changes nothing,
so two shutdowns in a row end in the same state, with the same calls, as one. -/
theorem shutdown_idempotent (c : Client) :
    (c.running = false → c.shutdown = (0, c))
      ∧ (c.running = true →
          c.shutdown.1 = 0 ∧ c.shutdown.2.running = false
          ∧ c.shutdown.2.events =
              c.events ++ (if c.wsThread then [Event.wsThreadJoin] else [])
                ++ (if c.tunThread then [Event.tunThreadJoin] else [])
                ++ [Event.tunDown, Event.wsDisconnect])
      ∧ c.shutdown.2.shutdown = (0, c.shutdown.2) := by
  refine ⟨?_, ?_, ?_⟩
  · intro h
    simp [Client.shutdown, h]
  · intro h
    cases hw : c.wsThread <;> cases ht : c.tunThread <;>
      simp [Client.shutdown, h, hw, ht, Client.emit, Client.tunDown]
  · cases h : c.running
    · simp [Client.shutdown, h]
    · cases hw : c.wsThread <;> cases ht : c.tunThread <;>
        simp [Client.shutdown, h, hw, ht, Client.emit, Client.tunDown]

/-- C7, worked example: shutting down the session whose interface is up joins both threads,
brings the interface down and disconnects, once; shutting down again changes nothing. -/
theorem shutdown_idempotent_witness :
    (demoUp.shutdown.2.events = demoUp.events ++
        [Event.wsThreadJoin, Event.tunThreadJoin, Event.tunDown, Event.wsDisconnect])
      ∧ demoUp.shutdown.2.shutdown = (0, demoUp.shutdown.2) :=
  ⟨(((shutdown_idempotent demoUp).2.1 (by decide)).2.2).trans (by decide),
    (shutdown_idempotent demoUp).2.2⟩

/-- C8, counterexample: a session that was assigned "10.0.0.7/24" by a first response and
then receives a second well-formed response carrying "10.0.0.5/24" (its bring-up failing at
`tun.up()`, so that the process goes on) ends with `getAddress` returning "10.0.0.5/24": the
non-empty effective local address was changed, and it was assigned twice. -/
theorem effective_address_freeze_counterexample :
    (handleWebSocketMessage demoEnv (demoClient [] str_10_0_0_0_24)
        [demoOpen, demoAssign str_10_0_0_7_24 tunOk]).getAddress = str_10_0_0_7_24
      ∧ (handleWebSocketMessage demoEnv (demoClient [] str_10_0_0_0_24)
          [demoOpen, demoAssign str_10_0_0_7_24 tunOk,
            demoAssign str_10_0_0_5_24 tunUpFails]).getAddress = str_10_0_0_5_24
      ∧ (handleWebSocketMessage demoEnv (demoClient [] str_10_0_0_0_24)
          [demoOpen, demoAssign str_10_0_0_7_24 tunOk,
            demoAssign str_10_0_0_5_24 tunUpFails]).terminated = false
      ∧ assignments (handleWebSocketMessage demoEnv (demoClient [] str_10_0_0_0_24)
          [demoOpen, demoAssign str_10_0_0_7_24 tunOk,
            demoAssign str_10_0_0_5_24 tunUpFails]).events = 2 := by
  decide

/-- C8, amended. Over every sequence of reads processed by the Inbound Loop the effective
local address is assigned at most once for each Data payload typed DynamicAddress, and no
other envelope changes it: over a sequence without such a payload `getAddress` keeps its
value.  A well-formed DynamicAddress response always overwrites it with the CIDR it carries,
whatever its value was. -/
theorem effective_address_changes_only_on_response (env : Env) (c : Client)
    (reads : List WsRead) :
    (∃ new, (handleWebSocketMessage env c reads).events = c.events ++ new
        ∧ assignments new ≤ reads.countP (WsRead.isDynamicAddress env))
      ∧ (reads.countP (WsRead.isDynamicAddress env) = 0 →
          (handleWebSocketMessage env c reads).getAddress = c.getAddress)
      ∧ (∀ r : WsRead, 0 < r.error → r.message.type = WebSocketMessageType.Message →
          front r.message.buffer ≠ env.TYPE_FORWARD →
          front r.message.buffer = env.TYPE_DYNAMIC_ADDRESS →
          r.message.buffer.length = env.sizeofDynamicAddressHeader →
          (env.cidrUpdate (headerCidr env r.message.buffer)).1 = 0 →
          (wsIteration env c r).2.getAddress = responseCidr env r.message.buffer) := by
  obtain ⟨new, he, _, ha, hl, _⟩ := handleWebSocketMessage_trace env reads c
  refine ⟨⟨new, he, ha⟩, hl, ?_⟩
  intro r herr hty hf hfront hlen hparse
  have h0 : r.error ≠ 0 := by omega
  have h1 : ¬ r.error < 0 := by omega
  unfold wsIteration
  simp only [h0, h1, if_false, hty]
  rw [if_neg hf, if_pos hfront]
  rw [handleDynamicAddressMessage_ok env r.tun c r.message hlen hparse]
  simp only [Client.getAddress]
  rw [startTunThread_localAddress]
  rfl

/-- C8 amended, worked example: an Open, a Forward payload and an unknown payload leave the
configured address "10.0.0.5/24" in place. -/
theorem effective_address_changes_only_on_response_witness :
    (handleWebSocketMessage demoEnv (demoClient str_10_0_0_5_24 [])
        [demoOpen,
          { error := 1,
            message := { type := WebSocketMessageType.Message, buffer := [1, 8, 9] },
            tun := tunOk },
          { error := 1,
            message := { type := WebSocketMessageType.Message, buffer := [77] },
            tun := tunOk }]).getAddress = str_10_0_0_5_24 :=
  (effective_address_changes_only_on_response demoEnv (demoClient str_10_0_0_5_24 [])
    [demoOpen,
      { error := 1,
        message := { type := WebSocketMessageType.Message, buffer := [1, 8, 9] },
        tun := tunOk },
      { error := 1,
        message := { type := WebSocketMessageType.Message, buffer := [77] },
        tun := tunOk }]).2.1 (by decide)

theorem demoEnv_rendersNonEmpty : demoEnv.rendersNonEmpty := by
  intro s h
  have key : (demoCidrUpdate s).1 = 0 → (demoCidrUpdate s).2.cidr = s := by
    unfold demoCidrUpdate
    split
    · split
      · split
        · intro _
          rfl
        · intro h
          simp at h
      · intro h
        simp at h
    · intro h
      simp at h
  have h2 : (demoCidrUpdate s).2.cidr = s := key h
  show (demoCidrUpdate s).2.cidr ≠ []
  rw [h2]
  rintro rfl
  revert h
  decide

/-- C9, counterexample: with the configured address "10.0.0.5/24", two Open envelopes whose
bring-ups both succeed create the Outbound Loop twice; the second creation is followed by
`std::terminate`. -/
theorem single_outbound_loop_counterexample :
    threadStarts (handleWebSocketMessage demoEnv (demoClient str_10_0_0_5_24 [])
        [demoOpen, demoOpen]).events = 2
      ∧ (handleWebSocketMessage demoEnv (demoClient str_10_0_0_5_24 [])
          [demoOpen, demoOpen]).events =
        [Event.tunSetName strCandy, Event.tunSetAddress str_10_0_0_5_24, Event.tunSetMTU 1400,
          Event.tunSetTimeout 1, Event.tunUp, Event.tunThreadStart str_10_0_0_5_24,
          Event.wsWrite (0 :: 10 :: 0 :: 0 :: 5 :: demoTag (some strSecret)),
          Event.tunSetName strCandy, Event.tunSetAddress str_10_0_0_5_24, Event.tunSetMTU 1400,
          Event.tunSetTimeout 1, Event.tunUp, Event.tunThreadStart str_10_0_0_5_24,
          Event.stdTerminate] := by
  decide

/-- C9, amended. Over every sequence of reads processed by the Inbound Loop the Outbound Loop
is created at most once for each Open envelope or Data payload typed DynamicAddress, and at
most once altogether in every run that is not ended by `std::terminate`; at each moment it is
created the effective local address is non-empty, the CIDR reader never rendering an address
it accepted as the empty string. -/
theorem outbound_loop_created_once_unless_terminated (env : Env) (c : Client)
    (reads : List WsRead) :
    ∃ new, (handleWebSocketMessage env c reads).events = c.events ++ new
      ∧ threadStarts new ≤ reads.countP (WsRead.isBringUpRequest env)
      ∧ ((handleWebSocketMessage env c reads).terminated = false → threadStarts new ≤ 1)
      ∧ (env.rendersNonEmpty → ∀ a, Event.tunThreadStart a ∈ new → a ≠ []) := by
  obtain ⟨new, he, hs, _, _, hne⟩ := handleWebSocketMessage_trace env reads c
  refine ⟨new, he, hs, ?_, hne⟩
  intro hterm
  obtain ⟨_, hb⟩ := handleWebSocketMessage_thread env reads c
  obtain ⟨_, _, _, hle⟩ := hb hterm
  rw [he] at hle
  simp only [threadStarts, List.countP_append] at hle ⊢
  omega

/-- C9 amended, worked example: a dynamic session whose second response fails to bring the
interface up is not terminated and has created the Outbound Loop once, with a non-empty
address. -/
theorem outbound_loop_created_once_unless_terminated_witness :
    ∃ new, (handleWebSocketMessage demoEnv (demoClient [] str_10_0_0_0_24)
          [demoOpen, demoAssign str_10_0_0_7_24 tunOk,
            demoAssign str_10_0_0_5_24 tunUpFails]).events = [] ++ new
      ∧ threadStarts new ≤ 1 ∧ ∀ a, Event.tunThreadStart a ∈ new → a ≠ [] := by
  obtain ⟨new, he, _, hterm, hne⟩ :=
    outbound_loop_created_once_unless_terminated demoEnv (demoClient [] str_10_0_0_0_24)
      [demoOpen, demoAssign str_10_0_0_7_24 tunOk, demoAssign str_10_0_0_5_24 tunUpFails]
  exact ⟨new, he, hterm (by decide), hne demoEnv_rendersNonEmpty⟩

/-- C10, the code at the failing input.  Static path: on Open with the address "10.0.0.5/24"
and `tun.up()` failing, the pass stops the loop, which raises the termination signal; no
Outbound Loop, no Auth.  Dynamic path: on a well-formed response with `tun.up()` failing, no
Outbound Loop and no Auth either, but the result of `startTunThread` is discarded: the pass
ends in `continue`, no termination signal is raised, and the loop goes on to forward the next
payload to the interface. -/
theorem dynamic_bring_up_failure_ignored :
    (wsIteration demoEnv (demoClient str_10_0_0_5_24 [])
        { error := 1, message := { type := WebSocketMessageType.Open, buffer := [] },
          tun := tunUpFails }).1 = Ctl.stop
      ∧ (handleWebSocketMessage demoEnv (demoClient str_10_0_0_5_24 [])
          [{ error := 1, message := { type := WebSocketMessageType.Open, buffer := [] },
             tun := tunUpFails }]).events =
        [Event.tunSetName strCandy, Event.tunSetAddress str_10_0_0_5_24, Event.tunSetMTU 1400,
          Event.tunSetTimeout 1, Event.tunUp, Event.candyShutdown]
      ∧ (wsIteration demoEnv (demoClient [] str_10_0_0_0_24)
          (demoAssign str_10_0_0_7_24 tunUpFails)).1 = Ctl.next
      ∧ (handleWebSocketMessage demoEnv (demoClient [] str_10_0_0_0_24)
          [demoAssign str_10_0_0_7_24 tunUpFails,
            { error := 1,
              message := { type := WebSocketMessageType.Message, buffer := [1, 8, 9] },
              tun := tunOk }]).events =
        [Event.setLocalAddress str_10_0_0_7_24, Event.tunSetName strCandy,
          Event.tunSetAddress str_10_0_0_7_24, Event.tunSetMTU 1400, Event.tunSetTimeout 1,
          Event.tunUp, Event.tunWrite [8, 9]] := by
  decide

end Candy
